import Mathlib

/-!
Shallow embedding of the event-sequencing core of the DemoDataGen repository
(`src/services/EventGenerator.ts` together with the primitives it uses from
`src/utils/DataGenerationUtils.ts`), followed by theorems settling the
specification claims about that code.

Randomness model: the TypeScript code draws from a process-wide faker source.
We model one execution's draws as an oracle `Rand` holding two streams indexed
by a tick counter that is advanced once per primitive call, mirroring the call
order of the source:
  * `q : Nat → ℚ` supplies the uniform draws behind
    `faker.datatype.boolean({probability})`; the actual uniform value in
    `[0, 1)` is the fractional part of `q t`, so every stream denotes a valid
    execution and every execution is denoted by some stream.
  * `nat : Nat → Nat` supplies the raw entropy behind integer draws
    (`faker.number.int({min,max})` is modelled as `min + nat t % (max-min+1)`,
    which realises exactly the values `min..max`), array-element picks, and
    the opaque faker-generated values (uuids, names, urls, ...), which we
    model as opaque naturals.
-/

namespace DemoDataGen

/-- One execution's random draws: a tick-indexed oracle. -/
structure Rand where
  nat : Nat → Nat
  q : Nat → ℚ

/-- The fractional part of a rational, always in `[0, 1)`: used to turn the
raw `q`-stream values into uniform draws. -/
def unitFrac (x : ℚ) : ℚ :=
  x - x.floor

/-- `DataGenerationUtils.generateRandomBoolean(p)` = `faker.datatype.boolean({probability:p})`:
true iff a uniform draw in `[0,1)` is `< p`. Consumes one tick. -/
def randBool (r : Rand) (k : Nat) (p : ℚ) : Bool × Nat :=
  (decide (unitFrac (r.q k) < p), k + 1)

/-- `DataGenerationUtils.generateRandomInt(lo, hi)` = `faker.number.int({min,max})`:
an arbitrary integer in `[lo, hi]` (for `lo ≤ hi`). Consumes one tick. -/
def randNat (r : Rand) (k : Nat) (lo hi : Nat) : Nat × Nat :=
  (lo + r.nat k % (hi - lo + 1), k + 1)

/-- `DataGenerationUtils.generateId()` = `faker.string.uuid()`: an opaque fresh value. -/
def genId (r : Rand) (k : Nat) : Nat × Nat :=
  (r.nat k, k + 1)

/-- `DataGenerationUtils.generateRecentDate()` = `faker.date.recent({days:30})`:
an opaque timestamp (milliseconds). -/
def generateRecentDate (r : Rand) (k : Nat) : Nat × Nat :=
  (r.nat k, k + 1)

/-- Any other faker-driven helper producing an opaque value
(names, emails, addresses, urls, sentences, past dates, element picks inside
payload synthesis): one tick, one opaque natural. -/
def fakerDraw (r : Rand) (k : Nat) : Nat × Nat :=
  (r.nat k, k + 1)

/-- The 16 event types of `src/types/index.ts` used by the event generator. -/
inductive EventType where
  | page_view
  | search
  | article_view
  | video_view
  | audio_listen
  | ad_view
  | ad_click
  | email_open
  | email_click
  | add_itemToCart
  | remove_itemFromCart
  | view_cart
  | checkout
  | transaction_complete
  | richpush_open
  | richpush_click
deriving DecidableEq, Repr

/-- `DataGenerationUtils.generateRandomElement` = `faker.helpers.arrayElement`,
specialised to event-type lists: an arbitrary element of the list. -/
def randElem (r : Rand) (k : Nat) (xs : List EventType) : EventType × Nat :=
  (xs.getD (r.nat k % xs.length) .page_view, k + 1)

/-- The passive-browsing list that `determineEventType` picks from in its
`hasCheckedOut` fallback and its final default branch. -/
def passiveBrowsing : List EventType :=
  [.page_view, .search, .article_view, .video_view, .audio_listen,
   .ad_view, .ad_click, .email_open, .email_click, .richpush_open, .richpush_click]

/-- The five cart/transaction event types. -/
def cartEventTypes : List EventType :=
  [.add_itemToCart, .view_cart, .checkout, .remove_itemFromCart, .transaction_complete]

/-- `EventGenerationContext` of `src/types/events.ts`. `cartItems` is a
JavaScript number that the code only ever increments or floors at 0;
we model it as `Int` so that non-negativity is a real statement. -/
structure EventGenerationContext where
  hasAddedToCart : Bool
  hasViewedCart : Bool
  hasCheckedOut : Bool
  cartItems : Int
  sessionId : Nat
  baseTimestamp : Nat
deriving DecidableEq, Repr

/-- The configuration slice read by `EventGenerator`
(`config.dataGeneration.eventCountPerUser`, `config.dataGeneration.anonymousUserCount`,
`config.eventGeneration.*`, `config.userProfiles.mobileIdProbability.anonymous`). -/
structure EventGenConfig where
  eventCountMin : Nat
  eventCountMax : Nat
  anonymousUserCountMin : Nat
  anonymousUserCountMax : Nat
  sessionContinuationProbability : ℚ
  addToCartProbability : ℚ
  viewCartAfterAddProbability : ℚ
  checkoutAfterViewCartProbability : ℚ
  transactionAfterCheckoutProbability : ℚ
  removeFromCartProbability : ℚ
  mobileIdProbabilityAnonymous : ℚ
deriving DecidableEq, Repr

/-- `profileType` of `UserProfile` in `src/types/events.ts`. -/
inductive ProfileType where
  | registered
  | anonymous
deriving DecidableEq, Repr

/-- `UserProfile` of `src/types/events.ts`; opaque string/date fields are
modelled as opaque naturals. -/
structure UserProfile where
  id : Nat
  firstName : Nat
  lastName : Nat
  email : Nat
  emailHash : Nat
  address : Nat
  createdAt : Nat
  profileType : ProfileType
  cookieId : Nat
  maidId : Option Nat
deriving DecidableEq, Repr

/-- The payload (`Record<string, unknown>`) built by
`EventGenerator.generateEventData`: the shared base fields plus the
type-specific fields, each opaque value modelled as a natural. -/
structure EventData where
  pageUrl : Nat
  userAgent : Nat
  ipAddress : Nat
  sessionId : Nat
  referrer : Option Nat
  deviceType : Nat
  browser : Nat
  os : Nat
  productId : Option Nat := none
  productName : Option Nat := none
  quantity : Option Nat := none
  price : Option Nat := none
  itemCount : Option Int := none
  totalValue : Option Nat := none
  paymentMethod : Option Nat := none
  orderId : Option Nat := none
  shippingAddress : Option Nat := none
  searchQuery : Option Nat := none
  resultsCount : Option Nat := none
  emailId : Option Nat := none
  subject : Option Nat := none
  campaignId : Option Nat := none
  linkUrl : Option Nat := none
  linkText : Option Nat := none
  notificationId : Option Nat := none
  title : Option Nat := none
  body : Option Nat := none
  action : Option Nat := none
deriving DecidableEq, Repr

/-- `UserEvent` of `src/types/events.ts`. -/
structure UserEvent where
  id : Nat
  userId : Option Nat
  cookieId : Nat
  maidId : Option Nat
  eventType : EventType
  eventData : EventData
  timestamp : Nat
  country : String
deriving DecidableEq, Repr

/-- `EventGenerator.determineEventType`, last four rules of the priority chain
(reached when `hasCheckedOut` is false): add-to-cart draw, else passive pick. -/
def detAdd (cfg : EventGenConfig) (r : Rand) (k : Nat) : EventType × Nat :=
  let b := randBool r k cfg.addToCartProbability
  if b.1 then (.add_itemToCart, b.2) else randElem r b.2 passiveBrowsing

/-- Priority rule: `hasAddedToCart && bool(removeFromCartProbability)` → remove. -/
def detRemove (cfg : EventGenConfig) (context : EventGenerationContext)
    (r : Rand) (k : Nat) : EventType × Nat :=
  if context.hasAddedToCart then
    let b := randBool r k cfg.removeFromCartProbability
    if b.1 then (.remove_itemFromCart, b.2) else detAdd cfg r b.2
  else detAdd cfg r k

/-- Priority rule: `hasAddedToCart && bool(viewCartAfterAddProbability)` → view_cart. -/
def detView (cfg : EventGenConfig) (context : EventGenerationContext)
    (r : Rand) (k : Nat) : EventType × Nat :=
  if context.hasAddedToCart then
    let b := randBool r k cfg.viewCartAfterAddProbability
    if b.1 then (.view_cart, b.2) else detRemove cfg context r b.2
  else detRemove cfg context r k

/-- Priority rule: `hasViewedCart && bool(checkoutAfterViewCartProbability)` → checkout. -/
def detCheckout (cfg : EventGenConfig) (context : EventGenerationContext)
    (r : Rand) (k : Nat) : EventType × Nat :=
  if context.hasViewedCart then
    let b := randBool r k cfg.checkoutAfterViewCartProbability
    if b.1 then (.checkout, b.2) else detView cfg context r b.2
  else detView cfg context r k

/-- `EventGenerator.determineEventType`: the full priority chain.
Index 0 → uniform pick of page_view/search; `hasCheckedOut` →
transaction draw, else passive pick; otherwise the checkout/view/remove/add
chain with a passive default. Each executed `&&`-guarded Bernoulli draw
consumes one tick, exactly as the short-circuiting source does. -/
def determineEventType (cfg : EventGenConfig) (context : EventGenerationContext)
    (eventIndex : Nat) (r : Rand) (k : Nat) : EventType × Nat :=
  if eventIndex = 0 then
    randElem r k [.page_view, .search]
  else if context.hasCheckedOut then
    let b := randBool r k cfg.transactionAfterCheckoutProbability
    if b.1 then (.transaction_complete, b.2) else randElem r b.2 passiveBrowsing
  else detCheckout cfg context r k

/-- `EventGenerator.updateContext`: the switch on the emitted event type. -/
def updateContext (context : EventGenerationContext) (eventType : EventType) :
    EventGenerationContext :=
  match eventType with
  | .add_itemToCart =>
      { context with hasAddedToCart := true, cartItems := context.cartItems + 1 }
  | .remove_itemFromCart =>
      { context with cartItems := max 0 (context.cartItems - 1) }
  | .view_cart => { context with hasViewedCart := true }
  | .checkout => { context with hasCheckedOut := true }
  | _ => context

/-- `EventGenerator.generateEventData`: base payload (one
`DataGenerationUtils.generateEventData('page_view')` call, one referrer draw at
probability 0.7), then the per-event-type switch, each branch consuming the
ticks of the faker helpers it calls in source order. Returns the payload, the
context as the function leaves it (the source only reads `context.sessionId`
and `context.cartItems`, it never writes), and the advanced tick. -/
def generateEventData (eventType : EventType) (context : EventGenerationContext)
    (r : Rand) (k : Nat) : EventData × EventGenerationContext × Nat :=
  let pv := fakerDraw r k
  let rb := randBool r pv.2 (7/10)
  let base : EventData :=
    { pageUrl := pv.1, userAgent := pv.1, ipAddress := pv.1,
      sessionId := context.sessionId,
      referrer := if rb.1 then some pv.1 else none,
      deviceType := pv.1, browser := pv.1, os := pv.1 }
  match eventType with
  | .add_itemToCart =>
      let s := fakerDraw r rb.2
      ({ base with productId := some s.1, productName := some s.1,
                   quantity := some s.1, price := some s.1 }, context, s.2)
  | .remove_itemFromCart =>
      let s := fakerDraw r rb.2
      ({ base with productId := some s.1, productName := some s.1,
                   quantity := some s.1 }, context, s.2)
  | .view_cart =>
      let tv := fakerDraw r rb.2
      ({ base with itemCount := some context.cartItems,
                   totalValue := some tv.1 }, context, tv.2)
  | .checkout =>
      let s := fakerDraw r rb.2
      let tv := fakerDraw r s.2
      ({ base with itemCount := some context.cartItems, totalValue := some tv.1,
                   paymentMethod := some s.1 }, context, tv.2)
  | .transaction_complete =>
      let s := fakerDraw r rb.2
      let a := fakerDraw r s.2
      ({ base with orderId := some s.1, totalValue := some s.1,
                   paymentMethod := some s.1, shippingAddress := some a.1 },
       context, a.2)
  | .search =>
      let s := fakerDraw r rb.2
      ({ base with searchQuery := some s.1, resultsCount := some s.1 }, context, s.2)
  | .email_open =>
      let s := fakerDraw r rb.2
      ({ base with emailId := some s.1, subject := some s.1,
                   campaignId := some s.1 }, context, s.2)
  | .email_click =>
      let s := fakerDraw r rb.2
      let u := fakerDraw r s.2
      let t := fakerDraw r u.2
      ({ base with emailId := some s.1, linkUrl := some u.1,
                   linkText := some t.1 }, context, t.2)
  | .richpush_open =>
      let nid := genId r rb.2
      let t := fakerDraw r nid.2
      let b := fakerDraw r t.2
      ({ base with notificationId := some nid.1, title := some t.1,
                   body := some b.1 }, context, b.2)
  | .richpush_click =>
      let nid := genId r rb.2
      let a := fakerDraw r nid.2
      ({ base with notificationId := some nid.1, action := some a.1 }, context, a.2)
  | _ => (base, context, rb.2)

/-- One iteration body of the loop in `EventGenerator.generateUserEventSequence`
up to pushing the event: determine the type, update the context, build the
`UserEvent` literal (id draw, payload draws, timestamp-offset draw, in source
evaluation order). Returns the event, the context after `updateContext`, and
the advanced tick. -/
def generateStep (cfg : EventGenConfig) (profile : UserProfile) (country : String)
    (context : EventGenerationContext) (i : Nat) (r : Rand) (k : Nat) :
    UserEvent × EventGenerationContext × Nat :=
  let d := determineEventType cfg context i r k
  let context1 := updateContext context d.1
  let e := genId r d.2
  let g := generateEventData d.1 context1 r e.2
  let o := randNat r g.2.2 1000 300000
  ({ id := e.1,
     userId := if profile.profileType = .registered then some profile.id else none,
     cookieId := profile.cookieId,
     maidId := profile.maidId,
     eventType := d.1,
     eventData := g.1,
     timestamp := g.2.1.baseTimestamp + i * o.1,
     country := country }, g.2.1, o.2)

/-- Tail of the loop body: `if (i > 0 && bool(1 - sessionContinuationProbability))`
replace `sessionId` and `baseTimestamp`. The `&&` short-circuits, so the draw
happens only when `i > 0`. -/
def sessionStep (cfg : EventGenConfig) (context : EventGenerationContext) (i : Nat)
    (r : Rand) (k : Nat) : EventGenerationContext × Nat :=
  if 0 < i then
    let b := randBool r k (1 - cfg.sessionContinuationProbability)
    if b.1 then
      let sid := genId r b.2
      let bt := generateRecentDate r sid.2
      ({ context with sessionId := sid.1, baseTimestamp := bt.1 }, bt.2)
    else (context, b.2)
  else (context, k)

/-- The `for (let i = 0; i < eventCount; i++)` loop of
`generateUserEventSequence`, by recursion on the remaining count. -/
def genEvents (cfg : EventGenConfig) (profile : UserProfile) (country : String)
    (r : Rand) : Nat → Nat → EventGenerationContext → Nat →
    List UserEvent × EventGenerationContext × Nat
  | 0, _, context, k => ([], context, k)
  | fuel + 1, i, context, k =>
      let s := generateStep cfg profile country context i r k
      let c := sessionStep cfg s.2.1 i r s.2.2
      let rest := genEvents cfg profile country r fuel (i + 1) c.1 c.2
      (s.1 :: rest.1, rest.2.1, rest.2.2)

/-- The context initializer of `generateUserEventSequence`: flags false,
`cartItems = 0`, fresh session id and base timestamp. -/
def initContext (sid bt : Nat) : EventGenerationContext :=
  { hasAddedToCart := false, hasViewedCart := false, hasCheckedOut := false,
    cartItems := 0, sessionId := sid, baseTimestamp := bt }

/-- `EventGenerator.generateUserEventSequence`: draw the event count from
`[eventCountMin, eventCountMax]`, initialize the context, run the loop. -/
def generateUserEventSequence (cfg : EventGenConfig) (profile : UserProfile)
    (country : String) (r : Rand) (k : Nat) : List UserEvent × Nat :=
  let n := randNat r k cfg.eventCountMin cfg.eventCountMax
  let sid := genId r n.2
  let bt := generateRecentDate r sid.2
  let run := genEvents cfg profile country r n.1 0 (initContext sid.1 bt.1) bt.2
  (run.1, run.2.2)

/-- `DataGenerationUtils.generateTrackingIds(true, p)`: a cookie id always,
a maid id with probability `p`. -/
def generateTrackingIds (r : Rand) (k : Nat) (maidProbability : ℚ) :
    (Nat × Option Nat) × Nat :=
  let cid := genId r k
  let b := randBool r cid.2 maidProbability
  if b.1 then
    let m := genId r b.2
    ((cid.1, some m.1), m.2)
  else ((cid.1, none), b.2)

/-- The synthesized extra anonymous identity built inside the loop of
`EventGenerator.generateUserEvents`: name, email (with hash of the email),
tracking ids, then the profile literal (fresh id, address, past creation
date, `profileType: 'anonymous'`). -/
def makeAnonymousProfile (cfg : EventGenConfig) (r : Rand) (k : Nat) :
    UserProfile × Nat :=
  let fn := fakerDraw r k
  let ln := fakerDraw r fn.2
  let em := fakerDraw r ln.2
  let tr := generateTrackingIds r em.2 cfg.mobileIdProbabilityAnonymous
  let pid := genId r tr.2
  let ad := fakerDraw r pid.2
  let cd := fakerDraw r ad.2
  ({ id := pid.1, firstName := fn.1, lastName := ln.1, email := em.1,
     emailHash := em.1, address := ad.1, createdAt := cd.1,
     profileType := .anonymous, cookieId := tr.1.1, maidId := tr.1.2 }, cd.2)

/-- The `for (let i = 0; i < anonymousUserCount; i++)` loop of
`generateUserEvents`. -/
def genAnonymousEvents (cfg : EventGenConfig) (country : String) (r : Rand) :
    Nat → Nat → List UserEvent × Nat
  | 0, k => ([], k)
  | n + 1, k =>
      let p := makeAnonymousProfile cfg r k
      let evs := generateUserEventSequence cfg p.1 country r p.2
      let rest := genAnonymousEvents cfg country r n evs.2
      (evs.1 ++ rest.1, rest.2)

/-- The `userProfiles.forEach` part of `generateUserEvents`. -/
def genProfilesEvents (cfg : EventGenConfig) (country : String) (r : Rand) :
    List UserProfile → Nat → List UserEvent × Nat
  | [], k => ([], k)
  | p :: ps, k =>
      let evs := generateUserEventSequence cfg p country r k
      let rest := genProfilesEvents cfg country r ps evs.2
      (evs.1 ++ rest.1, rest.2)

/-- `EventGenerator.generateUserEvents`: sequences for the supplied profiles,
then a drawn number of extra synthesized anonymous identities. -/
def generateUserEvents (cfg : EventGenConfig) (userProfiles : List UserProfile)
    (country : String) (r : Rand) (k : Nat) : List UserEvent × Nat :=
  let evs := genProfilesEvents cfg country r userProfiles k
  let n := randNat r evs.2 cfg.anonymousUserCountMin cfg.anonymousUserCountMax
  let anon := genAnonymousEvents cfg country r n.1 n.2
  (evs.1 ++ anon.1, anon.2)

/-- The sequence of `EventGenerationContext` values traversed by `genEvents`:
the context at the head of each iteration and the context after that
iteration's `updateContext` (the post-`sessionStep` context is the next
iteration's head). Built from the same `generateStep`/`sessionStep` bodies. -/
def ctxTrace (cfg : EventGenConfig) (profile : UserProfile) (country : String)
    (r : Rand) : Nat → Nat → EventGenerationContext → Nat →
    List EventGenerationContext
  | 0, _, context, _ => [context]
  | fuel + 1, i, context, k =>
      let s := generateStep cfg profile country context i r k
      let c := sessionStep cfg s.2.1 i r s.2.2
      context :: s.2.1 :: ctxTrace cfg profile country r fuel (i + 1) c.1 c.2

/-- Causality shape used for the sequencing claims: every occurrence of `tgt`
in the type list `T` is preceded by an occurrence of `wit`, unless the flag
`b` (the state at the start of `T`) already accounts for it. -/
abbrev causalOk (b : Bool) (tgt wit : EventType) (T : List EventType) : Prop :=
  ∀ j : Nat, T[j]? = some tgt → b = true ∨ ∃ m : Nat, m < j ∧ T[m]? = some wit

/-! ### Concrete fixtures used by witnesses and counterexamples -/

/-- The all-zero draw stream. -/
def zeroRand : Rand := ⟨fun _ => 0, fun _ => 0⟩

/-- A draw stream whose raw naturals are the tick indices (so successive id
draws are pairwise distinct). -/
def idRand : Rand := ⟨fun t => t, fun _ => 0⟩

/-- A draw stream that makes the timestamp-offset draw of loop iteration 1
yield 300000 ms while iteration 2 draws 1000 ms (all other draws zero):
tick 13 is the `generateRandomInt(1000, 300000)` call of iteration 1 when the
configuration is `quietCfg`. -/
def spikeRand : Rand := ⟨fun t => if t = 13 then 299000 else 0, fun _ => 0⟩

/-- A concrete registered profile. -/
def profileReg : UserProfile :=
  { id := 7, firstName := 0, lastName := 0, email := 0, emailHash := 0,
    address := 0, createdAt := 0, profileType := .registered,
    cookieId := 3, maidId := none }

/-- Three events per user, all cart probabilities zero, session always
continued. -/
def quietCfg : EventGenConfig :=
  { eventCountMin := 3, eventCountMax := 3,
    anonymousUserCountMin := 0, anonymousUserCountMax := 0,
    sessionContinuationProbability := 1,
    addToCartProbability := 0, viewCartAfterAddProbability := 0,
    checkoutAfterViewCartProbability := 0, transactionAfterCheckoutProbability := 0,
    removeFromCartProbability := 0, mobileIdProbabilityAnonymous := 0 }

/-- The configuration of the spec's concrete scenario: exactly 10 events,
session continuation 1.0, all funnel probabilities 1.0, remove 0.0. -/
def scenarioCfg : EventGenConfig :=
  { eventCountMin := 10, eventCountMax := 10,
    anonymousUserCountMin := 0, anonymousUserCountMax := 0,
    sessionContinuationProbability := 1,
    addToCartProbability := 1, viewCartAfterAddProbability := 1,
    checkoutAfterViewCartProbability := 1, transactionAfterCheckoutProbability := 1,
    removeFromCartProbability := 0, mobileIdProbabilityAnonymous := 0 }

/-- Three events per user, all cart probabilities zero, session-continuation
probability 0 (a new session is started whenever the guard allows it). -/
def newSessionCfg : EventGenConfig :=
  { eventCountMin := 3, eventCountMax := 3,
    anonymousUserCountMin := 0, anonymousUserCountMax := 0,
    sessionContinuationProbability := 0,
    addToCartProbability := 0, viewCartAfterAddProbability := 0,
    checkoutAfterViewCartProbability := 0, transactionAfterCheckoutProbability := 0,
    removeFromCartProbability := 0, mobileIdProbabilityAnonymous := 0 }

/-- A default `UserEvent` used with `List.getD`. -/
def defaultEvent : UserEvent :=
  { id := 0, userId := none, cookieId := 0, maidId := none,
    eventType := .page_view,
    eventData := { pageUrl := 0, userAgent := 0, ipAddress := 0, sessionId := 0,
                   referrer := none, deviceType := 0, browser := 0, os := 0 },
    timestamp := 0, country := "" }

/-! ### Basic lemmas about the primitives and the loop body -/

theorem unitFrac_nonneg (x : ℚ) : 0 ≤ unitFrac x := by
  have h : (x.floor : ℚ) ≤ x := Rat.le_floor.1 le_rfl
  unfold unitFrac
  linarith

theorem unitFrac_lt_one (x : ℚ) : unitFrac x < 1 := by
  have h : ¬((x.floor + 1 : ℤ) : ℚ) ≤ x := by
    intro hc
    exact absurd (Rat.le_floor.2 hc) (by omega)
  push_cast at h
  unfold unitFrac
  linarith

theorem randBool_of_one (r : Rand) (k : Nat) : randBool r k 1 = (true, k + 1) := by
  simp [randBool, unitFrac_lt_one]

theorem randBool_of_zero (r : Rand) (k : Nat) : randBool r k 0 = (false, k + 1) := by
  simp [randBool, not_lt.2 (unitFrac_nonneg (r.q k))]

theorem generateEventData_context (t : EventType) (c : EventGenerationContext)
    (r : Rand) (k : Nat) : (generateEventData t c r k).2.1 = c := by
  cases t <;> rfl

theorem generateEventData_sessionId (t : EventType) (c : EventGenerationContext)
    (r : Rand) (k : Nat) : (generateEventData t c r k).1.sessionId = c.sessionId := by
  cases t <;> rfl

theorem updateContext_sessionId (c : EventGenerationContext) (t : EventType) :
    (updateContext c t).sessionId = c.sessionId := by
  cases t <;> rfl

theorem updateContext_baseTimestamp (c : EventGenerationContext) (t : EventType) :
    (updateContext c t).baseTimestamp = c.baseTimestamp := by
  cases t <;> rfl

theorem updateContext_hasAddedToCart (c : EventGenerationContext) (t : EventType) :
    (updateContext c t).hasAddedToCart = (c.hasAddedToCart || t = .add_itemToCart) := by
  cases t <;> simp [updateContext]

theorem updateContext_hasViewedCart (c : EventGenerationContext) (t : EventType) :
    (updateContext c t).hasViewedCart = (c.hasViewedCart || t = .view_cart) := by
  cases t <;> simp [updateContext]

theorem updateContext_hasCheckedOut (c : EventGenerationContext) (t : EventType) :
    (updateContext c t).hasCheckedOut = (c.hasCheckedOut || t = .checkout) := by
  cases t <;> simp [updateContext]

theorem updateContext_cartItems_nonneg (c : EventGenerationContext) (t : EventType)
    (h : 0 ≤ c.cartItems) : 0 ≤ (updateContext c t).cartItems := by
  cases t <;> simp [updateContext] <;> omega

theorem sessionStep_hasAddedToCart (cfg : EventGenConfig) (c : EventGenerationContext)
    (i : Nat) (r : Rand) (k : Nat) :
    (sessionStep cfg c i r k).1.hasAddedToCart = c.hasAddedToCart := by
  unfold sessionStep
  split
  · dsimp only
    split <;> rfl
  · rfl

theorem sessionStep_hasViewedCart (cfg : EventGenConfig) (c : EventGenerationContext)
    (i : Nat) (r : Rand) (k : Nat) :
    (sessionStep cfg c i r k).1.hasViewedCart = c.hasViewedCart := by
  unfold sessionStep
  split
  · dsimp only
    split <;> rfl
  · rfl

theorem sessionStep_hasCheckedOut (cfg : EventGenConfig) (c : EventGenerationContext)
    (i : Nat) (r : Rand) (k : Nat) :
    (sessionStep cfg c i r k).1.hasCheckedOut = c.hasCheckedOut := by
  unfold sessionStep
  split
  · dsimp only
    split <;> rfl
  · rfl

theorem sessionStep_cartItems (cfg : EventGenConfig) (c : EventGenerationContext)
    (i : Nat) (r : Rand) (k : Nat) :
    (sessionStep cfg c i r k).1.cartItems = c.cartItems := by
  unfold sessionStep
  split
  · dsimp only
    split <;> rfl
  · rfl

theorem sessionStep_zero (cfg : EventGenConfig) (c : EventGenerationContext)
    (r : Rand) (k : Nat) : sessionStep cfg c 0 r k = (c, k) := by
  simp [sessionStep]

theorem generateStep_eventType (cfg : EventGenConfig) (p : UserProfile) (c : String)
    (ctx : EventGenerationContext) (i : Nat) (r : Rand) (k : Nat) :
    (generateStep cfg p c ctx i r k).1.eventType = (determineEventType cfg ctx i r k).1 :=
  rfl

theorem generateStep_context (cfg : EventGenConfig) (p : UserProfile) (c : String)
    (ctx : EventGenerationContext) (i : Nat) (r : Rand) (k : Nat) :
    (generateStep cfg p c ctx i r k).2.1 =
      updateContext ctx (determineEventType cfg ctx i r k).1 := by
  simp only [generateStep, generateEventData_context]

theorem generateStep_userId (cfg : EventGenConfig) (p : UserProfile) (c : String)
    (ctx : EventGenerationContext) (i : Nat) (r : Rand) (k : Nat) :
    (generateStep cfg p c ctx i r k).1.userId =
      if p.profileType = .registered then some p.id else none :=
  rfl

theorem generateStep_cookieId (cfg : EventGenConfig) (p : UserProfile) (c : String)
    (ctx : EventGenerationContext) (i : Nat) (r : Rand) (k : Nat) :
    (generateStep cfg p c ctx i r k).1.cookieId = p.cookieId :=
  rfl

theorem generateStep_sessionId (cfg : EventGenConfig) (p : UserProfile) (c : String)
    (ctx : EventGenerationContext) (i : Nat) (r : Rand) (k : Nat) :
    (generateStep cfg p c ctx i r k).1.eventData.sessionId = ctx.sessionId := by
  simp only [generateStep, generateEventData_sessionId, updateContext_sessionId]

theorem genEvents_length (cfg : EventGenConfig) (p : UserProfile) (c : String)
    (r : Rand) (fuel : Nat) : ∀ (i : Nat) (ctx : EventGenerationContext) (k : Nat),
    ((genEvents cfg p c r fuel i ctx k).1).length = fuel := by
  induction fuel with
  | zero => intro i ctx k; rfl
  | succ f ih => intro i ctx k; simp [genEvents, ih]

theorem randElem_mem (r : Rand) (k : Nat) (xs : List EventType) (hne : xs ≠ []) :
    (randElem r k xs).1 ∈ xs := by
  have hlt : r.nat k % xs.length < xs.length :=
    Nat.mod_lt _ (List.length_pos.2 hne)
  unfold randElem
  rw [List.getD_eq_getElem _ _ hlt]
  exact List.getElem_mem hlt

theorem passive_excl : ∀ x ∈ passiveBrowsing,
    x ≠ EventType.transaction_complete ∧ x ≠ EventType.checkout ∧
    x ≠ EventType.view_cart ∧ x ≠ EventType.remove_itemFromCart ∧
    x ≠ EventType.add_itemToCart := by decide

theorem first_excl : ∀ x ∈ ([.page_view, .search] : List EventType),
    x ≠ EventType.transaction_complete ∧ x ≠ EventType.checkout ∧
    x ≠ EventType.view_cart ∧ x ≠ EventType.remove_itemFromCart := by decide

theorem detAdd_excl (cfg : EventGenConfig) (r : Rand) (k : Nat) :
    (detAdd cfg r k).1 ≠ EventType.transaction_complete ∧
    (detAdd cfg r k).1 ≠ EventType.checkout ∧
    (detAdd cfg r k).1 ≠ EventType.view_cart ∧
    (detAdd cfg r k).1 ≠ EventType.remove_itemFromCart := by
  unfold detAdd
  dsimp only
  split
  · refine ⟨?_, ?_, ?_, ?_⟩ <;> simp
  · have h := passive_excl _
      (randElem_mem r (randBool r k cfg.addToCartProbability).2 passiveBrowsing (by decide))
    exact ⟨h.1, h.2.1, h.2.2.1, h.2.2.2.1⟩

theorem detRemove_spec (cfg : EventGenConfig) (ctx : EventGenerationContext)
    (r : Rand) (k : Nat) :
    (detRemove cfg ctx r k).1 ≠ EventType.transaction_complete ∧
    (detRemove cfg ctx r k).1 ≠ EventType.checkout ∧
    (detRemove cfg ctx r k).1 ≠ EventType.view_cart ∧
    ((detRemove cfg ctx r k).1 = EventType.remove_itemFromCart →
      ctx.hasAddedToCart = true) := by
  unfold detRemove
  split
  · rename_i hadd
    dsimp only
    split
    · refine ⟨by simp, by simp, by simp, fun _ => hadd⟩
    · have h := detAdd_excl cfg r (randBool r k cfg.removeFromCartProbability).2
      exact ⟨h.1, h.2.1, h.2.2.1, fun hr => absurd hr h.2.2.2⟩
  · have h := detAdd_excl cfg r k
    exact ⟨h.1, h.2.1, h.2.2.1, fun hr => absurd hr h.2.2.2⟩

theorem detView_spec (cfg : EventGenConfig) (ctx : EventGenerationContext)
    (r : Rand) (k : Nat) :
    (detView cfg ctx r k).1 ≠ EventType.transaction_complete ∧
    (detView cfg ctx r k).1 ≠ EventType.checkout ∧
    ((detView cfg ctx r k).1 = EventType.view_cart → ctx.hasAddedToCart = true) ∧
    ((detView cfg ctx r k).1 = EventType.remove_itemFromCart →
      ctx.hasAddedToCart = true) := by
  unfold detView
  split
  · rename_i hadd
    dsimp only
    split
    · refine ⟨by simp, by simp, fun _ => hadd, by simp⟩
    · have h := detRemove_spec cfg ctx r (randBool r k cfg.viewCartAfterAddProbability).2
      exact ⟨h.1, h.2.1, fun hv => absurd hv h.2.2.1, h.2.2.2⟩
  · have h := detRemove_spec cfg ctx r k
    exact ⟨h.1, h.2.1, fun hv => absurd hv h.2.2.1, h.2.2.2⟩

theorem detCheckout_spec (cfg : EventGenConfig) (ctx : EventGenerationContext)
    (r : Rand) (k : Nat) :
    (detCheckout cfg ctx r k).1 ≠ EventType.transaction_complete ∧
    ((detCheckout cfg ctx r k).1 = EventType.checkout → ctx.hasViewedCart = true) ∧
    ((detCheckout cfg ctx r k).1 = EventType.view_cart → ctx.hasAddedToCart = true) ∧
    ((detCheckout cfg ctx r k).1 = EventType.remove_itemFromCart →
      ctx.hasAddedToCart = true) := by
  unfold detCheckout
  split
  · rename_i hvc
    dsimp only
    split
    · refine ⟨by simp, fun _ => hvc, by simp, by simp⟩
    · have h := detView_spec cfg ctx r (randBool r k cfg.checkoutAfterViewCartProbability).2
      exact ⟨h.1, fun hc => absurd hc h.2.1, h.2.2.1, h.2.2.2⟩
  · have h := detView_spec cfg ctx r k
    exact ⟨h.1, fun hc => absurd hc h.2.1, h.2.2.1, h.2.2.2⟩

/-- The priority chain only emits a cart/transaction event type when the flag
that guards its rule is already set. -/
theorem determineEventType_spec (cfg : EventGenConfig) (ctx : EventGenerationContext)
    (i : Nat) (r : Rand) (k : Nat) :
    ((determineEventType cfg ctx i r k).1 = EventType.transaction_complete →
      ctx.hasCheckedOut = true) ∧
    ((determineEventType cfg ctx i r k).1 = EventType.checkout →
      ctx.hasViewedCart = true) ∧
    ((determineEventType cfg ctx i r k).1 = EventType.view_cart →
      ctx.hasAddedToCart = true) ∧
    ((determineEventType cfg ctx i r k).1 = EventType.remove_itemFromCart →
      ctx.hasAddedToCart = true) := by
  unfold determineEventType
  split
  · have h := first_excl _ (randElem_mem r k [.page_view, .search] (by decide))
    exact ⟨fun ht => absurd ht h.1, fun ht => absurd ht h.2.1,
           fun ht => absurd ht h.2.2.1, fun ht => absurd ht h.2.2.2⟩
  · split
    · rename_i hi hco
      dsimp only
      split
      · refine ⟨fun _ => hco, by simp, by simp, by simp⟩
      · have h := passive_excl _
          (randElem_mem r (randBool r k cfg.transactionAfterCheckoutProbability).2
            passiveBrowsing (by decide))
        exact ⟨fun ht => absurd ht h.1, fun ht => absurd ht h.2.1,
               fun ht => absurd ht h.2.2.1, fun ht => absurd ht h.2.2.2.1⟩
    · have h := detCheckout_spec cfg ctx r k
      exact ⟨fun ht => absurd ht h.1, h.2.1, h.2.2.1, h.2.2.2⟩

theorem causalOk_cons {b b2 : Bool} {tgt wit et : EventType} {T : List EventType}
    (hhead : et = tgt → b = true)
    (hflag : b2 = (b || et = wit))
    (h : causalOk b2 tgt wit T) :
    causalOk b tgt wit (et :: T) := by
  intro j hj
  match j with
  | 0 =>
      rw [List.getElem?_cons_zero, Option.some.injEq] at hj
      exact Or.inl (hhead hj)
  | jj + 1 =>
      rw [List.getElem?_cons_succ] at hj
      rcases h jj hj with hb | ⟨m, hm, hwit⟩
      · rw [hflag, Bool.or_eq_true] at hb
        rcases hb with hb | hbw
        · exact Or.inl hb
        · refine Or.inr ⟨0, Nat.succ_pos jj, ?_⟩
          rw [List.getElem?_cons_zero, Option.some.injEq]
          exact of_decide_eq_true hbw
      · exact Or.inr ⟨m + 1, Nat.succ_lt_succ hm, by
          rw [List.getElem?_cons_succ]; exact hwit⟩

/-- The causal chain holds through the generation loop: a cart/transaction
event can only appear after the event that sets its guarding flag, unless the
flag was already set in the starting context. -/
theorem genEvents_causal (cfg : EventGenConfig) (p : UserProfile) (c : String)
    (r : Rand) (fuel : Nat) : ∀ (i : Nat) (ctx : EventGenerationContext) (k : Nat),
    causalOk ctx.hasCheckedOut .transaction_complete .checkout
      (((genEvents cfg p c r fuel i ctx k).1).map (fun e => e.eventType)) ∧
    causalOk ctx.hasViewedCart .checkout .view_cart
      (((genEvents cfg p c r fuel i ctx k).1).map (fun e => e.eventType)) ∧
    causalOk ctx.hasAddedToCart .view_cart .add_itemToCart
      (((genEvents cfg p c r fuel i ctx k).1).map (fun e => e.eventType)) := by
  induction fuel with
  | zero =>
      intro i ctx k
      refine ⟨?_, ?_, ?_⟩ <;> intro j hj <;> simp [genEvents] at hj
  | succ f ih =>
      intro i ctx k
      have hspec := determineEventType_spec cfg ctx i r k
      have hlist : (genEvents cfg p c r (f + 1) i ctx k).1 =
          (generateStep cfg p c ctx i r k).1 ::
          (genEvents cfg p c r f (i + 1)
            (sessionStep cfg (generateStep cfg p c ctx i r k).2.1 i r
              (generateStep cfg p c ctx i r k).2.2).1
            (sessionStep cfg (generateStep cfg p c ctx i r k).2.1 i r
              (generateStep cfg p c ctx i r k).2.2).2).1 := rfl
      rw [hlist, List.map_cons, generateStep_eventType]
      have hih := ih (i + 1)
        (sessionStep cfg (generateStep cfg p c ctx i r k).2.1 i r
          (generateStep cfg p c ctx i r k).2.2).1
        (sessionStep cfg (generateStep cfg p c ctx i r k).2.1 i r
          (generateStep cfg p c ctx i r k).2.2).2
      have hco : (sessionStep cfg (generateStep cfg p c ctx i r k).2.1 i r
          (generateStep cfg p c ctx i r k).2.2).1.hasCheckedOut =
          (ctx.hasCheckedOut || (determineEventType cfg ctx i r k).1 = .checkout) := by
        rw [sessionStep_hasCheckedOut, generateStep_context, updateContext_hasCheckedOut]
      have hvc : (sessionStep cfg (generateStep cfg p c ctx i r k).2.1 i r
          (generateStep cfg p c ctx i r k).2.2).1.hasViewedCart =
          (ctx.hasViewedCart || (determineEventType cfg ctx i r k).1 = .view_cart) := by
        rw [sessionStep_hasViewedCart, generateStep_context, updateContext_hasViewedCart]
      have hac : (sessionStep cfg (generateStep cfg p c ctx i r k).2.1 i r
          (generateStep cfg p c ctx i r k).2.2).1.hasAddedToCart =
          (ctx.hasAddedToCart || (determineEventType cfg ctx i r k).1 = .add_itemToCart) := by
        rw [sessionStep_hasAddedToCart, generateStep_context, updateContext_hasAddedToCart]
      refine ⟨?_, ?_, ?_⟩
      · exact causalOk_cons hspec.1 hco hih.1
      · exact causalOk_cons hspec.2.1 hvc hih.2.1
      · exact causalOk_cons hspec.2.2.1 hac hih.2.2

theorem genEvents_head (cfg : EventGenConfig) (p : UserProfile) (c : String)
    (r : Rand) (f i : Nat) (ctx : EventGenerationContext) (k : Nat) :
    ((genEvents cfg p c r (f + 1) i ctx k).1)[0]? =
      some (generateStep cfg p c ctx i r k).1 := by
  simp [genEvents]

theorem randElem_two (r : Rand) (k : Nat) :
    (randElem r k [.page_view, .search]).1 = EventType.page_view ∨
    (randElem r k [.page_view, .search]).1 = EventType.search := by
  unfold randElem
  rcases Nat.mod_two_eq_zero_or_one (r.nat k) with h | h <;> simp [h]

theorem determineEventType_zero (cfg : EventGenConfig) (ctx : EventGenerationContext)
    (r : Rand) (k : Nat) :
    determineEventType cfg ctx 0 r k = randElem r k [.page_view, .search] := by
  unfold determineEventType
  simp

theorem passive_not_cart : ∀ x ∈ passiveBrowsing, x ∉ cartEventTypes := by decide

theorem first_sub_passive : ∀ x ∈ ([.page_view, .search] : List EventType),
    x ∈ passiveBrowsing := by decide

theorem detAdd_passive (cfg : EventGenConfig) (r : Rand) (k : Nat)
    (h : cfg.addToCartProbability = 0) :
    (detAdd cfg r k).1 ∈ passiveBrowsing := by
  unfold detAdd
  dsimp only
  rw [h, randBool_of_zero]
  exact randElem_mem r (k + 1) passiveBrowsing (by decide)

theorem detRemove_passive (cfg : EventGenConfig) (ctx : EventGenerationContext)
    (r : Rand) (k : Nat)
    (ha : cfg.addToCartProbability = 0) (hr : cfg.removeFromCartProbability = 0) :
    (detRemove cfg ctx r k).1 ∈ passiveBrowsing := by
  unfold detRemove
  split
  · dsimp only
    rw [hr, randBool_of_zero]
    exact detAdd_passive cfg r (k + 1) ha
  · exact detAdd_passive cfg r k ha

theorem detView_passive (cfg : EventGenConfig) (ctx : EventGenerationContext)
    (r : Rand) (k : Nat)
    (ha : cfg.addToCartProbability = 0) (hr : cfg.removeFromCartProbability = 0)
    (hv : cfg.viewCartAfterAddProbability = 0) :
    (detView cfg ctx r k).1 ∈ passiveBrowsing := by
  unfold detView
  split
  · dsimp only
    rw [hv, randBool_of_zero]
    exact detRemove_passive cfg ctx r (k + 1) ha hr
  · exact detRemove_passive cfg ctx r k ha hr

theorem detCheckout_passive (cfg : EventGenConfig) (ctx : EventGenerationContext)
    (r : Rand) (k : Nat)
    (ha : cfg.addToCartProbability = 0) (hr : cfg.removeFromCartProbability = 0)
    (hv : cfg.viewCartAfterAddProbability = 0)
    (hc : cfg.checkoutAfterViewCartProbability = 0) :
    (detCheckout cfg ctx r k).1 ∈ passiveBrowsing := by
  unfold detCheckout
  split
  · dsimp only
    rw [hc, randBool_of_zero]
    exact detView_passive cfg ctx r (k + 1) ha hr hv
  · exact detView_passive cfg ctx r k ha hr hv

/-- With all five cart probabilities at 0, the priority chain only ever picks
from the passive-browsing set (whatever the context flags are). -/
theorem determineEventType_passive (cfg : EventGenConfig) (ctx : EventGenerationContext)
    (i : Nat) (r : Rand) (k : Nat)
    (ha : cfg.addToCartProbability = 0) (hr : cfg.removeFromCartProbability = 0)
    (hv : cfg.viewCartAfterAddProbability = 0)
    (hc : cfg.checkoutAfterViewCartProbability = 0)
    (ht : cfg.transactionAfterCheckoutProbability = 0) :
    (determineEventType cfg ctx i r k).1 ∈ passiveBrowsing := by
  unfold determineEventType
  split
  · exact first_sub_passive _ (randElem_mem r k [.page_view, .search] (by decide))
  · split
    · dsimp only
      rw [ht, randBool_of_zero]
      exact randElem_mem r (k + 1) passiveBrowsing (by decide)
    · exact detCheckout_passive cfg ctx r k ha hr hv hc

theorem genEvents_passive (cfg : EventGenConfig) (p : UserProfile) (c : String)
    (r : Rand) (fuel : Nat)
    (ha : cfg.addToCartProbability = 0) (hr : cfg.removeFromCartProbability = 0)
    (hv : cfg.viewCartAfterAddProbability = 0)
    (hc : cfg.checkoutAfterViewCartProbability = 0)
    (ht : cfg.transactionAfterCheckoutProbability = 0) :
    ∀ (i : Nat) (ctx : EventGenerationContext) (k : Nat),
    ∀ e ∈ (genEvents cfg p c r fuel i ctx k).1, e.eventType ∈ passiveBrowsing := by
  induction fuel with
  | zero => intro i ctx k e he; simp [genEvents] at he
  | succ f ih =>
      intro i ctx k e he
      have hlist : (genEvents cfg p c r (f + 1) i ctx k).1 =
          (generateStep cfg p c ctx i r k).1 ::
          (genEvents cfg p c r f (i + 1)
            (sessionStep cfg (generateStep cfg p c ctx i r k).2.1 i r
              (generateStep cfg p c ctx i r k).2.2).1
            (sessionStep cfg (generateStep cfg p c ctx i r k).2.1 i r
              (generateStep cfg p c ctx i r k).2.2).2).1 := by
        simp [genEvents]
      rw [hlist] at he
      rcases List.mem_cons.1 he with he | he
      · rw [he, generateStep_eventType]
        exact determineEventType_passive cfg ctx i r k ha hr hv hc ht
      · exact ih (i + 1) _ _ e he

theorem genEvents_ids (cfg : EventGenConfig) (p : UserProfile) (c : String)
    (r : Rand) (fuel : Nat) : ∀ (i : Nat) (ctx : EventGenerationContext) (k : Nat),
    ∀ e ∈ (genEvents cfg p c r fuel i ctx k).1,
      e.userId = (if p.profileType = .registered then some p.id else none) ∧
      e.cookieId = p.cookieId := by
  induction fuel with
  | zero => intro i ctx k e he; simp [genEvents] at he
  | succ f ih =>
      intro i ctx k e he
      have hlist : (genEvents cfg p c r (f + 1) i ctx k).1 =
          (generateStep cfg p c ctx i r k).1 ::
          (genEvents cfg p c r f (i + 1)
            (sessionStep cfg (generateStep cfg p c ctx i r k).2.1 i r
              (generateStep cfg p c ctx i r k).2.2).1
            (sessionStep cfg (generateStep cfg p c ctx i r k).2.1 i r
              (generateStep cfg p c ctx i r k).2.2).2).1 := by
        simp [genEvents]
      rw [hlist] at he
      rcases List.mem_cons.1 he with he | he
      · rw [he]
        exact ⟨generateStep_userId cfg p c ctx i r k, generateStep_cookieId cfg p c ctx i r k⟩
      · exact ih (i + 1) _ _ e he

theorem generateUserEventSequence_ids (cfg : EventGenConfig) (p : UserProfile)
    (c : String) (r : Rand) (k : Nat) :
    ∀ e ∈ (generateUserEventSequence cfg p c r k).1,
      e.userId = (if p.profileType = .registered then some p.id else none) ∧
      e.cookieId = p.cookieId := by
  intro e he
  exact genEvents_ids cfg p c r _ 0 _ _ e he

theorem makeAnonymousProfile_profileType (cfg : EventGenConfig) (r : Rand) (k : Nat) :
    (makeAnonymousProfile cfg r k).1.profileType = .anonymous := by
  unfold makeAnonymousProfile
  dsimp only

theorem genAnonymousEvents_ids (cfg : EventGenConfig) (c : String) (r : Rand)
    (n : Nat) : ∀ (k : Nat), ∀ e ∈ (genAnonymousEvents cfg c r n k).1,
    ∃ p : UserProfile, p.profileType = .anonymous ∧ e.userId = none ∧
      e.cookieId = p.cookieId := by
  induction n with
  | zero => intro k e he; simp [genAnonymousEvents] at he
  | succ m ih =>
      intro k e he
      have hlist : (genAnonymousEvents cfg c r (m + 1) k).1 =
          (generateUserEventSequence cfg (makeAnonymousProfile cfg r k).1 c r
            (makeAnonymousProfile cfg r k).2).1 ++
          (genAnonymousEvents cfg c r m
            (generateUserEventSequence cfg (makeAnonymousProfile cfg r k).1 c r
              (makeAnonymousProfile cfg r k).2).2).1 := by
        simp [genAnonymousEvents]
      rw [hlist] at he
      rcases List.mem_append.1 he with he | he
      · have h := generateUserEventSequence_ids cfg (makeAnonymousProfile cfg r k).1 c r
          (makeAnonymousProfile cfg r k).2 e he
        refine ⟨(makeAnonymousProfile cfg r k).1, makeAnonymousProfile_profileType cfg r k,
          ?_, h.2⟩
        rw [h.1, makeAnonymousProfile_profileType cfg r k]
        simp
      · exact ih _ e he

theorem genProfilesEvents_ids (cfg : EventGenConfig) (c : String) (r : Rand)
    (ps : List UserProfile) : ∀ (k : Nat), ∀ e ∈ (genProfilesEvents cfg c r ps k).1,
    ∃ p ∈ ps, e.userId = (if p.profileType = .registered then some p.id else none) ∧
      e.cookieId = p.cookieId := by
  induction ps with
  | nil => intro k e he; simp [genProfilesEvents] at he
  | cons q qs ih =>
      intro k e he
      have hlist : (genProfilesEvents cfg c r (q :: qs) k).1 =
          (generateUserEventSequence cfg q c r k).1 ++
          (genProfilesEvents cfg c r qs
            (generateUserEventSequence cfg q c r k).2).1 := by
        simp [genProfilesEvents]
      rw [hlist] at he
      rcases List.mem_append.1 he with he | he
      · exact ⟨q, List.mem_cons_self q qs,
          generateUserEventSequence_ids cfg q c r k e he⟩
      · obtain ⟨p, hp, hpe⟩ := ih _ e he
        exact ⟨p, List.mem_cons_of_mem q hp, hpe⟩

theorem generateUserEventSequence_length (cfg : EventGenConfig) (p : UserProfile)
    (c : String) (r : Rand) (k : Nat) :
    ((generateUserEventSequence cfg p c r k).1).length =
      (randNat r k cfg.eventCountMin cfg.eventCountMax).1 := by
  have h : (generateUserEventSequence cfg p c r k).1 =
      (genEvents cfg p c r ((randNat r k cfg.eventCountMin cfg.eventCountMax).1) 0
        (initContext (genId r (randNat r k cfg.eventCountMin cfg.eventCountMax).2).1
          (generateRecentDate r
            (genId r (randNat r k cfg.eventCountMin cfg.eventCountMax).2).2).1)
        (generateRecentDate r
          (genId r (randNat r k cfg.eventCountMin cfg.eventCountMax).2).2).2).1 := rfl
  rw [h, genEvents_length]

theorem generateUserEvents_length_pos (cfg : EventGenConfig) (q : UserProfile)
    (qs : List UserProfile) (country : String) (r : Rand) (k : Nat)
    (hmin : 1 ≤ cfg.eventCountMin) :
    0 < ((generateUserEvents cfg (q :: qs) country r k).1).length := by
  have hsplit : (generateUserEvents cfg (q :: qs) country r k).1 =
      (genProfilesEvents cfg country r (q :: qs) k).1 ++
      (genAnonymousEvents cfg country r
        (randNat r (genProfilesEvents cfg country r (q :: qs) k).2
          cfg.anonymousUserCountMin cfg.anonymousUserCountMax).1
        (randNat r (genProfilesEvents cfg country r (q :: qs) k).2
          cfg.anonymousUserCountMin cfg.anonymousUserCountMax).2).1 := rfl
  have hq : (genProfilesEvents cfg country r (q :: qs) k).1 =
      (generateUserEventSequence cfg q country r k).1 ++
      (genProfilesEvents cfg country r qs
        (generateUserEventSequence cfg q country r k).2).1 := by
    simp [genProfilesEvents]
  have hlen : 1 ≤ ((generateUserEventSequence cfg q country r k).1).length := by
    rw [generateUserEventSequence_length]
    exact le_trans hmin (Nat.le_add_right _ _)
  rw [hsplit, hq]
  simp only [List.length_append]
  omega

theorem ctxTrace_cartItems_nonneg (cfg : EventGenConfig) (p : UserProfile)
    (c : String) (r : Rand) (fuel : Nat) :
    ∀ (i : Nat) (ctx : EventGenerationContext) (k : Nat), 0 ≤ ctx.cartItems →
    ∀ x ∈ ctxTrace cfg p c r fuel i ctx k, 0 ≤ x.cartItems := by
  induction fuel with
  | zero =>
      intro i ctx k h x hx
      simp [ctxTrace] at hx
      rw [hx]
      exact h
  | succ f ih =>
      intro i ctx k h x hx
      have hlist : ctxTrace cfg p c r (f + 1) i ctx k =
          ctx :: (generateStep cfg p c ctx i r k).2.1 ::
          ctxTrace cfg p c r f (i + 1)
            (sessionStep cfg (generateStep cfg p c ctx i r k).2.1 i r
              (generateStep cfg p c ctx i r k).2.2).1
            (sessionStep cfg (generateStep cfg p c ctx i r k).2.1 i r
              (generateStep cfg p c ctx i r k).2.2).2 := by
        simp [ctxTrace]
      have hmid : 0 ≤ (generateStep cfg p c ctx i r k).2.1.cartItems := by
        rw [generateStep_context]
        exact updateContext_cartItems_nonneg ctx _ h
      rw [hlist] at hx
      rcases List.mem_cons.1 hx with hx | hx
      · rw [hx]; exact h
      rcases List.mem_cons.1 hx with hx | hx
      · rw [hx]; exact hmid
      · refine ih (i + 1) _ _ ?_ x hx
        rw [sessionStep_cartItems]
        exact hmid

theorem unitFrac_zero : unitFrac 0 = 0 := by
  unfold unitFrac
  rw [Rat.floor_def']
  norm_num

theorem sub_one_one : (1 - 1 : ℚ) = 0 := by norm_num

theorem sub_one_zero : (1 - 0 : ℚ) = 1 := by norm_num

theorem randBool_zeroq_pos (r : Rand) (k : Nat) (p : ℚ) (hq : r.q k = 0)
    (hp : 0 < p) : randBool r k p = (true, k + 1) := by
  simp [randBool, hq, unitFrac_zero, hp]

theorem randBool_spike_referrer (k : Nat) :
    randBool spikeRand k (7 / 10) = (true, k + 1) :=
  randBool_zeroq_pos spikeRand k (7 / 10) rfl (by norm_num)

theorem spikeRand_nat (t : Nat) :
    spikeRand.nat t = if t = 13 then 299000 else 0 :=
  rfl

theorem genEvents_succ_types (cfg : EventGenConfig) (p : UserProfile) (c : String)
    (r : Rand) (f i : Nat) (ctx : EventGenerationContext) (k : Nat) :
    ((genEvents cfg p c r (f + 1) i ctx k).1).map (fun e => e.eventType) =
      (determineEventType cfg ctx i r k).1 ::
      ((genEvents cfg p c r f (i + 1)
        (sessionStep cfg (generateStep cfg p c ctx i r k).2.1 i r
          (generateStep cfg p c ctx i r k).2.2).1
        (sessionStep cfg (generateStep cfg p c ctx i r k).2.1 i r
          (generateStep cfg p c ctx i r k).2.2).2).1).map (fun e => e.eventType) := by
  simp [genEvents, generateStep_eventType]

theorem nextCtx_hasAddedToCart (cfg : EventGenConfig) (p : UserProfile) (c : String)
    (ctx : EventGenerationContext) (i : Nat) (r : Rand) (k : Nat) :
    (sessionStep cfg (generateStep cfg p c ctx i r k).2.1 i r
      (generateStep cfg p c ctx i r k).2.2).1.hasAddedToCart =
      (ctx.hasAddedToCart || (determineEventType cfg ctx i r k).1 = .add_itemToCart) := by
  rw [sessionStep_hasAddedToCart, generateStep_context, updateContext_hasAddedToCart]

theorem nextCtx_hasViewedCart (cfg : EventGenConfig) (p : UserProfile) (c : String)
    (ctx : EventGenerationContext) (i : Nat) (r : Rand) (k : Nat) :
    (sessionStep cfg (generateStep cfg p c ctx i r k).2.1 i r
      (generateStep cfg p c ctx i r k).2.2).1.hasViewedCart =
      (ctx.hasViewedCart || (determineEventType cfg ctx i r k).1 = .view_cart) := by
  rw [sessionStep_hasViewedCart, generateStep_context, updateContext_hasViewedCart]

theorem nextCtx_hasCheckedOut (cfg : EventGenConfig) (p : UserProfile) (c : String)
    (ctx : EventGenerationContext) (i : Nat) (r : Rand) (k : Nat) :
    (sessionStep cfg (generateStep cfg p c ctx i r k).2.1 i r
      (generateStep cfg p c ctx i r k).2.2).1.hasCheckedOut =
      (ctx.hasCheckedOut || (determineEventType cfg ctx i r k).1 = .checkout) := by
  rw [sessionStep_hasCheckedOut, generateStep_context, updateContext_hasCheckedOut]

theorem det_scenario_trans (ctx : EventGenerationContext) (i : Nat) (r : Rand) (k : Nat)
    (hi : i ≠ 0) (hco : ctx.hasCheckedOut = true) :
    determineEventType scenarioCfg ctx i r k = (.transaction_complete, k + 1) := by
  unfold determineEventType
  have h1 : scenarioCfg.transactionAfterCheckoutProbability = 1 := rfl
  simp [hi, hco, h1, randBool_of_one]

theorem det_scenario_checkout (ctx : EventGenerationContext) (i : Nat) (r : Rand) (k : Nat)
    (hi : i ≠ 0) (hco : ctx.hasCheckedOut = false) (hvc : ctx.hasViewedCart = true) :
    determineEventType scenarioCfg ctx i r k = (.checkout, k + 1) := by
  unfold determineEventType detCheckout
  have h1 : scenarioCfg.checkoutAfterViewCartProbability = 1 := rfl
  simp [hi, hco, hvc, h1, randBool_of_one]

theorem det_scenario_view (ctx : EventGenerationContext) (i : Nat) (r : Rand) (k : Nat)
    (hi : i ≠ 0) (hco : ctx.hasCheckedOut = false) (hvc : ctx.hasViewedCart = false)
    (hac : ctx.hasAddedToCart = true) :
    determineEventType scenarioCfg ctx i r k = (.view_cart, k + 1) := by
  unfold determineEventType detCheckout detView
  have h1 : scenarioCfg.viewCartAfterAddProbability = 1 := rfl
  simp [hi, hco, hvc, hac, h1, randBool_of_one]

theorem det_scenario_add (ctx : EventGenerationContext) (i : Nat) (r : Rand) (k : Nat)
    (hi : i ≠ 0) (hco : ctx.hasCheckedOut = false) (hvc : ctx.hasViewedCart = false)
    (hac : ctx.hasAddedToCart = false) :
    determineEventType scenarioCfg ctx i r k = (.add_itemToCart, k + 1) := by
  unfold determineEventType detCheckout detView detRemove detAdd
  have h1 : scenarioCfg.addToCartProbability = 1 := rfl
  simp [hi, hco, hvc, hac, h1, randBool_of_one]

theorem genEvents_scenario_tail (p : UserProfile) (c : String) (r : Rand) (fuel : Nat) :
    ∀ (i : Nat) (ctx : EventGenerationContext) (k : Nat), i ≠ 0 →
    ctx.hasCheckedOut = true →
    ((genEvents scenarioCfg p c r fuel i ctx k).1).map (fun e => e.eventType) =
      List.replicate fuel .transaction_complete := by
  induction fuel with
  | zero => intro i ctx k hi hco; simp [genEvents]
  | succ f ih =>
      intro i ctx k hi hco
      rw [genEvents_succ_types, det_scenario_trans ctx i r k hi hco,
        List.replicate_succ]
      have hco2 : (sessionStep scenarioCfg (generateStep scenarioCfg p c ctx i r k).2.1 i r
          (generateStep scenarioCfg p c ctx i r k).2.2).1.hasCheckedOut = true := by
        rw [nextCtx_hasCheckedOut, hco, Bool.true_or]
      rw [ih (i + 1) _ _ (Nat.succ_ne_zero i) hco2]

/-- Under `scenarioCfg`, from a context with all three flags false, the
10-event run is: a page_view-or-search opener, then `add_itemToCart`,
`view_cart`, `checkout`, and six `transaction_complete` events. -/
theorem genEvents_scenario (p : UserProfile) (c : String) (r : Rand)
    (ctx : EventGenerationContext) (k : Nat)
    (ha : ctx.hasAddedToCart = false) (hv : ctx.hasViewedCart = false)
    (hc : ctx.hasCheckedOut = false) :
    ∃ e0 : EventType, (e0 = .page_view ∨ e0 = .search) ∧
      ((genEvents scenarioCfg p c r 10 0 ctx k).1).map (fun e => e.eventType) =
        e0 :: .add_itemToCart :: .view_cart :: .checkout ::
          List.replicate 6 .transaction_complete := by
  have he0 : (determineEventType scenarioCfg ctx 0 r k).1 = EventType.page_view ∨
      (determineEventType scenarioCfg ctx 0 r k).1 = EventType.search := by
    rw [determineEventType_zero]
    exact randElem_two r k
  have hb : (decide ((determineEventType scenarioCfg ctx 0 r k).1 =
      EventType.add_itemToCart)) = false := by
    rcases he0 with h | h <;> simp [h]
  have hb2 : (decide ((determineEventType scenarioCfg ctx 0 r k).1 =
      EventType.view_cart)) = false := by
    rcases he0 with h | h <;> simp [h]
  have hb3 : (decide ((determineEventType scenarioCfg ctx 0 r k).1 =
      EventType.checkout)) = false := by
    rcases he0 with h | h <;> simp [h]
  refine ⟨(determineEventType scenarioCfg ctx 0 r k).1, he0, ?_⟩
  rw [show (10 : Nat) = 9 + 1 from rfl, genEvents_succ_types]
  set ctx1 := (sessionStep scenarioCfg (generateStep scenarioCfg p c ctx 0 r k).2.1 0 r
      (generateStep scenarioCfg p c ctx 0 r k).2.2).1 with hctx1
  set k1 := (sessionStep scenarioCfg (generateStep scenarioCfg p c ctx 0 r k).2.1 0 r
      (generateStep scenarioCfg p c ctx 0 r k).2.2).2 with hk1
  have h1a : ctx1.hasAddedToCart = false := by
    rw [hctx1, nextCtx_hasAddedToCart, ha, hb, Bool.or_self]
  have h1v : ctx1.hasViewedCart = false := by
    rw [hctx1, nextCtx_hasViewedCart, hv, hb2, Bool.or_self]
  have h1c : ctx1.hasCheckedOut = false := by
    rw [hctx1, nextCtx_hasCheckedOut, hc, hb3, Bool.or_self]
  rw [show (9 : Nat) = 8 + 1 from rfl, genEvents_succ_types]
  have hdet1 : determineEventType scenarioCfg ctx1 (0 + 1) r k1 =
      (.add_itemToCart, k1 + 1) :=
    det_scenario_add ctx1 (0 + 1) r k1 (by omega) h1c h1v h1a
  rw [hdet1]
  set ctx2 := (sessionStep scenarioCfg
      (generateStep scenarioCfg p c ctx1 (0 + 1) r k1).2.1 (0 + 1) r
      (generateStep scenarioCfg p c ctx1 (0 + 1) r k1).2.2).1 with hctx2
  set k2 := (sessionStep scenarioCfg
      (generateStep scenarioCfg p c ctx1 (0 + 1) r k1).2.1 (0 + 1) r
      (generateStep scenarioCfg p c ctx1 (0 + 1) r k1).2.2).2 with hk2
  have h2a : ctx2.hasAddedToCart = true := by
    rw [hctx2, nextCtx_hasAddedToCart, hdet1]
    simp
  have h2v : ctx2.hasViewedCart = false := by
    rw [hctx2, nextCtx_hasViewedCart, h1v, hdet1]
    simp
  have h2c : ctx2.hasCheckedOut = false := by
    rw [hctx2, nextCtx_hasCheckedOut, h1c, hdet1]
    simp
  rw [show (8 : Nat) = 7 + 1 from rfl, genEvents_succ_types]
  have hdet2 : determineEventType scenarioCfg ctx2 (0 + 1 + 1) r k2 =
      (.view_cart, k2 + 1) :=
    det_scenario_view ctx2 (0 + 1 + 1) r k2 (by omega) h2c h2v h2a
  rw [hdet2]
  set ctx3 := (sessionStep scenarioCfg
      (generateStep scenarioCfg p c ctx2 (0 + 1 + 1) r k2).2.1 (0 + 1 + 1) r
      (generateStep scenarioCfg p c ctx2 (0 + 1 + 1) r k2).2.2).1 with hctx3
  set k3 := (sessionStep scenarioCfg
      (generateStep scenarioCfg p c ctx2 (0 + 1 + 1) r k2).2.1 (0 + 1 + 1) r
      (generateStep scenarioCfg p c ctx2 (0 + 1 + 1) r k2).2.2).2 with hk3
  have h3v : ctx3.hasViewedCart = true := by
    rw [hctx3, nextCtx_hasViewedCart, hdet2]
    simp
  have h3c : ctx3.hasCheckedOut = false := by
    rw [hctx3, nextCtx_hasCheckedOut, h2c, hdet2]
    simp
  rw [show (7 : Nat) = 6 + 1 from rfl, genEvents_succ_types]
  have hdet3 : determineEventType scenarioCfg ctx3 (0 + 1 + 1 + 1) r k3 =
      (.checkout, k3 + 1) :=
    det_scenario_checkout ctx3 (0 + 1 + 1 + 1) r k3 (by omega) h3c h3v
  rw [hdet3]
  have h4c : (sessionStep scenarioCfg
      (generateStep scenarioCfg p c ctx3 (0 + 1 + 1 + 1) r k3).2.1 (0 + 1 + 1 + 1) r
      (generateStep scenarioCfg p c ctx3 (0 + 1 + 1 + 1) r k3).2.2).1.hasCheckedOut =
      true := by
    rw [nextCtx_hasCheckedOut, hdet3]
    simp
  rw [genEvents_scenario_tail p c r 6 (0 + 1 + 1 + 1 + 1) _ _ (by omega) h4c]

/-- The event-type list of a full `generateUserEventSequence` run under
`scenarioCfg`, for every draw outcome. -/
theorem scenario_run_types (profile : UserProfile) (country : String)
    (r : Rand) (k : Nat) :
    ∃ e0 : EventType, (e0 = .page_view ∨ e0 = .search) ∧
      ((generateUserEventSequence scenarioCfg profile country r k).1).map
        (fun e => e.eventType) =
        e0 :: .add_itemToCart :: .view_cart :: .checkout ::
          List.replicate 6 .transaction_complete := by
  have hfuel : (randNat r k scenarioCfg.eventCountMin scenarioCfg.eventCountMax).1 = 10 := by
    simp [randNat, scenarioCfg, Nat.mod_one]
  have hseq : (generateUserEventSequence scenarioCfg profile country r k).1 =
      (genEvents scenarioCfg profile country r
        ((randNat r k scenarioCfg.eventCountMin scenarioCfg.eventCountMax).1) 0
        (initContext
          (genId r (randNat r k scenarioCfg.eventCountMin scenarioCfg.eventCountMax).2).1
          (generateRecentDate r
            (genId r (randNat r k
              scenarioCfg.eventCountMin scenarioCfg.eventCountMax).2).2).1)
        (generateRecentDate r
          (genId r (randNat r k
            scenarioCfg.eventCountMin scenarioCfg.eventCountMax).2).2).2).1 := rfl
  rw [hseq, hfuel]
  exact genEvents_scenario profile country r _ _ rfl rfl rfl

/-- Concrete evaluation: the three event timestamps of the `quietCfg` run on
`spikeRand` are `[0, 300000, 2000]` — a decrease between indices 1 and 2,
because the code computes each timestamp as `baseTimestamp + i * offset` with
a fresh offset draw per event rather than a cumulative sum. -/
theorem spike_timestamps :
    ((generateUserEventSequence quietCfg profileReg "US" spikeRand 0).1).map
      (fun e => e.timestamp) = [0, 300000, 2000] := by
  simp [generateUserEventSequence, genEvents, generateStep, sessionStep,
    determineEventType, detCheckout, detView, detRemove, detAdd,
    generateEventData, randNat, randElem, genId, generateRecentDate, fakerDraw,
    initContext, quietCfg, randBool_of_zero, sub_one_one,
    randBool_spike_referrer, passiveBrowsing, updateContext, spikeRand_nat]

theorem generateStep_timestamp_const (cfg : EventGenConfig) (p : UserProfile)
    (c : String) (ctx : EventGenerationContext) (i : Nat) (r : Rand) (k : Nat)
    (cval : Nat) (hc : ∀ t, r.nat t = cval) :
    (generateStep cfg p c ctx i r k).1.timestamp =
      ctx.baseTimestamp + i * (1000 + cval % 299001) := by
  simp only [generateStep, generateEventData_context, updateContext_baseTimestamp,
    randNat, hc]

theorem sessionStep_const (cfg : EventGenConfig) (c : EventGenerationContext)
    (i : Nat) (r : Rand) (k : Nat) (hsc : cfg.sessionContinuationProbability = 1) :
    (sessionStep cfg c i r k).1 = c := by
  unfold sessionStep
  split
  · dsimp only
    rw [hsc, sub_one_one, randBool_of_zero]
    rfl
  · rfl

theorem genEvents_timestamps_const (cfg : EventGenConfig) (p : UserProfile)
    (c : String) (r : Rand) (cval : Nat) (fuel : Nat)
    (hsc : cfg.sessionContinuationProbability = 1) (hc : ∀ t, r.nat t = cval) :
    ∀ (i : Nat) (ctx : EventGenerationContext) (k : Nat),
    ((genEvents cfg p c r fuel i ctx k).1).map (fun e => e.timestamp) =
      (List.range fuel).map
        (fun j => ctx.baseTimestamp + (i + j) * (1000 + cval % 299001)) := by
  induction fuel with
  | zero => intro i ctx k; simp [genEvents]
  | succ f ih =>
      intro i ctx k
      have hlist : (genEvents cfg p c r (f + 1) i ctx k).1 =
          (generateStep cfg p c ctx i r k).1 ::
          (genEvents cfg p c r f (i + 1)
            (sessionStep cfg (generateStep cfg p c ctx i r k).2.1 i r
              (generateStep cfg p c ctx i r k).2.2).1
            (sessionStep cfg (generateStep cfg p c ctx i r k).2.1 i r
              (generateStep cfg p c ctx i r k).2.2).2).1 := by
        simp [genEvents]
      have hbt : (sessionStep cfg (generateStep cfg p c ctx i r k).2.1 i r
          (generateStep cfg p c ctx i r k).2.2).1.baseTimestamp = ctx.baseTimestamp := by
        rw [sessionStep_const cfg _ i r _ hsc, generateStep_context,
          updateContext_baseTimestamp]
      rw [hlist, List.map_cons, ih (i + 1), hbt,
        generateStep_timestamp_const cfg p c ctx i r k cval hc,
        List.range_succ_eq_map, List.map_cons, List.map_map, Nat.add_zero]
      refine congrArg (fun l => _ :: l) (List.map_congr_left ?_)
      intro j hj
      simp only [Function.comp_apply]
      have hj2 : i + 1 + j = i + j.succ := by omega
      rw [hj2]

theorem genEvents_firstTwo_sessionId (cfg : EventGenConfig) (p : UserProfile)
    (c : String) (r : Rand) (f : Nat) (ctx : EventGenerationContext) (k : Nat) :
    (((genEvents cfg p c r (f + 2) 0 ctx k).1).getD 0 defaultEvent).eventData.sessionId
      = ctx.sessionId ∧
    (((genEvents cfg p c r (f + 2) 0 ctx k).1).getD 1 defaultEvent).eventData.sessionId
      = ctx.sessionId := by
  have hlist1 : (genEvents cfg p c r (f + 2) 0 ctx k).1 =
      (generateStep cfg p c ctx 0 r k).1 ::
      (genEvents cfg p c r (f + 1) (0 + 1)
        (sessionStep cfg (generateStep cfg p c ctx 0 r k).2.1 0 r
          (generateStep cfg p c ctx 0 r k).2.2).1
        (sessionStep cfg (generateStep cfg p c ctx 0 r k).2.1 0 r
          (generateStep cfg p c ctx 0 r k).2.2).2).1 := by
    simp [show f + 2 = (f + 1) + 1 from rfl, genEvents]
  have hctx1 : (sessionStep cfg (generateStep cfg p c ctx 0 r k).2.1 0 r
      (generateStep cfg p c ctx 0 r k).2.2).1.sessionId = ctx.sessionId := by
    rw [sessionStep_zero, generateStep_context, updateContext_sessionId]
  have hlist2 : (genEvents cfg p c r (f + 1) (0 + 1)
      (sessionStep cfg (generateStep cfg p c ctx 0 r k).2.1 0 r
        (generateStep cfg p c ctx 0 r k).2.2).1
      (sessionStep cfg (generateStep cfg p c ctx 0 r k).2.1 0 r
        (generateStep cfg p c ctx 0 r k).2.2).2).1[0]? =
      some (generateStep cfg p c
        (sessionStep cfg (generateStep cfg p c ctx 0 r k).2.1 0 r
          (generateStep cfg p c ctx 0 r k).2.2).1 (0 + 1) r
        (sessionStep cfg (generateStep cfg p c ctx 0 r k).2.1 0 r
          (generateStep cfg p c ctx 0 r k).2.2).2).1 :=
    genEvents_head cfg p c r f (0 + 1) _ _
  constructor
  · rw [hlist1, List.getD_cons_zero, generateStep_sessionId]
  · rw [hlist1, List.getD_cons_succ, List.getD, List.get?_eq_getElem?, hlist2,
      Option.getD_some, generateStep_sessionId, hctx1]

theorem idRand_nat (t : Nat) : idRand.nat t = t := rfl

theorem randBool_id_referrer (k : Nat) :
    randBool idRand k (7 / 10) = (true, k + 1) :=
  randBool_zeroq_pos idRand k (7 / 10) rfl (by norm_num)

/-- Concrete evaluation: the payload sessionIds of the three events of the
`newSessionCfg` run on `idRand` (raw id draws = tick indices) are
`[1, 1, 18]`: events 0 and 1 share the initial session id (drawn at tick 1),
and the replacement fired at the end of iteration 1 gives event 2 a new id. -/
theorem newSession_sids :
    ((generateUserEventSequence newSessionCfg profileReg "US" idRand 0).1).map
      (fun e => e.eventData.sessionId) = [1, 1, 18] := by
  simp [generateUserEventSequence, genEvents, generateStep, sessionStep,
    determineEventType, detCheckout, detView, detRemove, detAdd,
    generateEventData, randNat, randElem, genId, generateRecentDate, fakerDraw,
    initContext, newSessionCfg, randBool_of_zero, sub_one_zero, randBool_of_one,
    randBool_id_referrer, passiveBrowsing, updateContext, idRand_nat]

/-! ### Claim theorems -/

/-- C1: for every user profile, country, and configuration with probabilities
in [0,1] and 1 ≤ min ≤ max event counts, in the event list returned by
`generateUserEventSequence` the causal chain holds: a `transaction_complete`
is preceded (at a strictly smaller index) by a `checkout`, a `checkout` by a
`view_cart`, and a `view_cart` by an `add_itemToCart`. -/
theorem claim_C1_causal_chain (cfg : EventGenConfig) (profile : UserProfile)
    (country : String) (r : Rand) (k : Nat)
    (hsc : 0 ≤ cfg.sessionContinuationProbability ∧ cfg.sessionContinuationProbability ≤ 1)
    (hadd : 0 ≤ cfg.addToCartProbability ∧ cfg.addToCartProbability ≤ 1)
    (hview : 0 ≤ cfg.viewCartAfterAddProbability ∧ cfg.viewCartAfterAddProbability ≤ 1)
    (hcov : 0 ≤ cfg.checkoutAfterViewCartProbability ∧ cfg.checkoutAfterViewCartProbability ≤ 1)
    (htr : 0 ≤ cfg.transactionAfterCheckoutProbability ∧ cfg.transactionAfterCheckoutProbability ≤ 1)
    (hrm : 0 ≤ cfg.removeFromCartProbability ∧ cfg.removeFromCartProbability ≤ 1)
    (hmin : 1 ≤ cfg.eventCountMin) (hmm : cfg.eventCountMin ≤ cfg.eventCountMax) :
    (∀ j : Nat,
      (((generateUserEventSequence cfg profile country r k).1).map
        (fun e => e.eventType))[j]? = some EventType.transaction_complete →
      ∃ m : Nat, m < j ∧ (((generateUserEventSequence cfg profile country r k).1).map
        (fun e => e.eventType))[m]? = some EventType.checkout) ∧
    (∀ j : Nat,
      (((generateUserEventSequence cfg profile country r k).1).map
        (fun e => e.eventType))[j]? = some EventType.checkout →
      ∃ m : Nat, m < j ∧ (((generateUserEventSequence cfg profile country r k).1).map
        (fun e => e.eventType))[m]? = some EventType.view_cart) ∧
    (∀ j : Nat,
      (((generateUserEventSequence cfg profile country r k).1).map
        (fun e => e.eventType))[j]? = some EventType.view_cart →
      ∃ m : Nat, m < j ∧ (((generateUserEventSequence cfg profile country r k).1).map
        (fun e => e.eventType))[m]? = some EventType.add_itemToCart) := by
  refine ⟨fun j hj => ?_, fun j hj => ?_, fun j hj => ?_⟩
  · exact ((genEvents_causal cfg profile country r _ 0 _ _).1 j hj).resolve_left
      (by simp [initContext])
  · exact ((genEvents_causal cfg profile country r _ 0 _ _).2.1 j hj).resolve_left
      (by simp [initContext])
  · exact ((genEvents_causal cfg profile country r _ 0 _ _).2.2 j hj).resolve_left
      (by simp [initContext])

theorem claim_C1_causal_chain_witness :
    ((1 : Nat) ≤ quietCfg.eventCountMin ∧
     quietCfg.eventCountMin ≤ quietCfg.eventCountMax ∧
     0 ≤ quietCfg.addToCartProbability ∧ quietCfg.addToCartProbability ≤ 1) ∧
    (∀ j : Nat,
      (((generateUserEventSequence quietCfg profileReg "US" zeroRand 0).1).map
        (fun e => e.eventType))[j]? = some EventType.transaction_complete →
      ∃ m : Nat, m < j ∧
        (((generateUserEventSequence quietCfg profileReg "US" zeroRand 0).1).map
          (fun e => e.eventType))[m]? = some EventType.checkout) :=
  ⟨⟨by decide, by decide, by decide, by decide⟩,
   (claim_C1_causal_chain quietCfg profileReg "US" zeroRand 0
      ⟨by decide, by decide⟩ ⟨by decide, by decide⟩ ⟨by decide, by decide⟩
      ⟨by decide, by decide⟩ ⟨by decide, by decide⟩ ⟨by decide, by decide⟩
      (by decide) (by decide)).1⟩

/-- C5: for every profile, country, and valid configuration with min ≥ 1, and
for every outcome of the draws, the first event of the sequence returned by
`generateUserEventSequence` has eventType `page_view` or `search`. -/
theorem claim_C5_first_event (cfg : EventGenConfig) (profile : UserProfile)
    (country : String) (r : Rand) (k : Nat)
    (hmin : 1 ≤ cfg.eventCountMin) (hmm : cfg.eventCountMin ≤ cfg.eventCountMax) :
    ∃ e : UserEvent, ((generateUserEventSequence cfg profile country r k).1)[0]? = some e ∧
      (e.eventType = EventType.page_view ∨ e.eventType = EventType.search) := by
  have hfuel : 1 ≤ (randNat r k cfg.eventCountMin cfg.eventCountMax).1 :=
    le_trans hmin (Nat.le_add_right _ _)
  obtain ⟨f, hf⟩ : ∃ f, (randNat r k cfg.eventCountMin cfg.eventCountMax).1 = f + 1 :=
    ⟨(randNat r k cfg.eventCountMin cfg.eventCountMax).1 - 1, by omega⟩
  have hseq : (generateUserEventSequence cfg profile country r k).1 =
      (genEvents cfg profile country r
        ((randNat r k cfg.eventCountMin cfg.eventCountMax).1) 0
        (initContext (genId r (randNat r k cfg.eventCountMin cfg.eventCountMax).2).1
          (generateRecentDate r
            (genId r (randNat r k cfg.eventCountMin cfg.eventCountMax).2).2).1)
        (generateRecentDate r
          (genId r (randNat r k cfg.eventCountMin cfg.eventCountMax).2).2).2).1 := rfl
  rw [hseq, hf]
  refine ⟨_, genEvents_head cfg profile country r f 0 _ _, ?_⟩
  rw [generateStep_eventType, determineEventType_zero]
  exact randElem_two r _

theorem claim_C5_first_event_witness :
    ((1 : Nat) ≤ quietCfg.eventCountMin ∧
     quietCfg.eventCountMin ≤ quietCfg.eventCountMax) ∧
    ∃ e : UserEvent,
      ((generateUserEventSequence quietCfg profileReg "US" zeroRand 0).1)[0]? = some e ∧
      (e.eventType = EventType.page_view ∨ e.eventType = EventType.search) :=
  ⟨⟨by decide, by decide⟩,
   claim_C5_first_event quietCfg profileReg "US" zeroRand 0 (by decide) (by decide)⟩

/-- C6: for every configuration in which the add-to-cart, view-cart-after-add,
checkout-after-view-cart, transaction-after-checkout, and remove-from-cart
probabilities are all 0.0, no sequence produced by `generateUserEventSequence`
(for any profile, country, and random outcome) contains an event of type
`add_itemToCart`, `view_cart`, `checkout`, `remove_itemFromCart`, or
`transaction_complete`. -/
theorem claim_C6_zero_probs_no_cart_events (cfg : EventGenConfig)
    (profile : UserProfile) (country : String) (r : Rand) (k : Nat)
    (ha : cfg.addToCartProbability = 0)
    (hv : cfg.viewCartAfterAddProbability = 0)
    (hc : cfg.checkoutAfterViewCartProbability = 0)
    (ht : cfg.transactionAfterCheckoutProbability = 0)
    (hr : cfg.removeFromCartProbability = 0) :
    ∀ e ∈ (generateUserEventSequence cfg profile country r k).1,
      e.eventType ∉ cartEventTypes := by
  intro e he
  have hseq : (generateUserEventSequence cfg profile country r k).1 =
      (genEvents cfg profile country r
        ((randNat r k cfg.eventCountMin cfg.eventCountMax).1) 0
        (initContext (genId r (randNat r k cfg.eventCountMin cfg.eventCountMax).2).1
          (generateRecentDate r
            (genId r (randNat r k cfg.eventCountMin cfg.eventCountMax).2).2).1)
        (generateRecentDate r
          (genId r (randNat r k cfg.eventCountMin cfg.eventCountMax).2).2).2).1 := rfl
  rw [hseq] at he
  exact passive_not_cart _
    (genEvents_passive cfg profile country r _ ha hr hv hc ht 0 _ _ e he)

theorem claim_C6_zero_probs_no_cart_events_witness :
    (quietCfg.addToCartProbability = 0 ∧ quietCfg.viewCartAfterAddProbability = 0 ∧
     quietCfg.checkoutAfterViewCartProbability = 0 ∧
     quietCfg.transactionAfterCheckoutProbability = 0 ∧
     quietCfg.removeFromCartProbability = 0) ∧
    ∀ e ∈ (generateUserEventSequence quietCfg profileReg "US" zeroRand 0).1,
      e.eventType ∉ cartEventTypes :=
  ⟨⟨by decide, by decide, by decide, by decide, by decide⟩,
   claim_C6_zero_probs_no_cart_events quietCfg profileReg "US" zeroRand 0
     (by decide) (by decide) (by decide) (by decide) (by decide)⟩

/-- C7: every event produced by `generateUserEvents` (whether for a supplied
profile or a synthesized extra anonymous identity) comes from a source profile
such that: if the profile is registered the event's userId equals the
profile's id, if it is anonymous the event carries no userId, and in both
cases the event's cookieId equals the profile's cookieId. -/
theorem claim_C7_event_identity (cfg : EventGenConfig) (ps : List UserProfile)
    (country : String) (r : Rand) (k : Nat) :
    ∀ e ∈ (generateUserEvents cfg ps country r k).1,
      ∃ p : UserProfile, (p ∈ ps ∨ p.profileType = .anonymous) ∧
        (p.profileType = .registered → e.userId = some p.id) ∧
        (p.profileType = .anonymous → e.userId = none) ∧
        e.cookieId = p.cookieId := by
  intro e he
  have hlist : (generateUserEvents cfg ps country r k).1 =
      (genProfilesEvents cfg country r ps k).1 ++
      (genAnonymousEvents cfg country r
        (randNat r (genProfilesEvents cfg country r ps k).2
          cfg.anonymousUserCountMin cfg.anonymousUserCountMax).1
        (randNat r (genProfilesEvents cfg country r ps k).2
          cfg.anonymousUserCountMin cfg.anonymousUserCountMax).2).1 := rfl
  rw [hlist] at he
  rcases List.mem_append.1 he with he | he
  · obtain ⟨p, hp, hid, hck⟩ := genProfilesEvents_ids cfg country r ps k e he
    refine ⟨p, Or.inl hp, ?_, ?_, hck⟩
    · intro hreg
      rw [hid, if_pos hreg]
    · intro hanon
      rw [hid, if_neg (by rw [hanon]; intro hx; cases hx)]
  · obtain ⟨p, hanon, hid, hck⟩ := genAnonymousEvents_ids cfg country r _ _ e he
    refine ⟨p, Or.inr hanon, ?_, fun _ => hid, hck⟩
    intro hreg
    rw [hanon] at hreg
    cases hreg

theorem claim_C7_event_identity_witness :
    ∃ p : UserProfile, (p ∈ [profileReg] ∨ p.profileType = .anonymous) ∧
      (p.profileType = .registered →
        (((generateUserEvents quietCfg [profileReg] "US" zeroRand 0).1).getD 0
          defaultEvent).userId = some p.id) ∧
      (p.profileType = .anonymous →
        (((generateUserEvents quietCfg [profileReg] "US" zeroRand 0).1).getD 0
          defaultEvent).userId = none) ∧
      (((generateUserEvents quietCfg [profileReg] "US" zeroRand 0).1).getD 0
        defaultEvent).cookieId = p.cookieId :=
  claim_C7_event_identity quietCfg [profileReg] "US" zeroRand 0
    (((generateUserEvents quietCfg [profileReg] "US" zeroRand 0).1).getD 0 defaultEvent)
    (by
      have hlen : 0 < ((generateUserEvents quietCfg [profileReg] "US" zeroRand 0).1).length :=
        generateUserEvents_length_pos quietCfg profileReg [] "US" zeroRand 0 (by decide)
      rw [List.getD_eq_getElem _ _ hlen]
      exact List.getElem_mem hlen)

/-- C8: starting from `cartItems = 0`, every context state reached during one
user's sequence generation has `cartItems ≥ 0`, and every `updateContext` call
(for every event type, including `remove_itemFromCart`) preserves
`cartItems ≥ 0`. -/
theorem claim_C8_cartItems_nonneg :
    (∀ (ctx : EventGenerationContext) (t : EventType), 0 ≤ ctx.cartItems →
       0 ≤ (updateContext ctx t).cartItems) ∧
    (∀ (cfg : EventGenConfig) (p : UserProfile) (c : String) (r : Rand)
       (fuel i sid bt k : Nat),
       ∀ x ∈ ctxTrace cfg p c r fuel i (initContext sid bt) k, 0 ≤ x.cartItems) := by
  refine ⟨updateContext_cartItems_nonneg, ?_⟩
  intro cfg p c r fuel i sid bt k x hx
  exact ctxTrace_cartItems_nonneg cfg p c r fuel i (initContext sid bt) k le_rfl x hx

theorem claim_C8_cartItems_nonneg_witness :
    0 ≤ (updateContext (initContext 0 0) EventType.remove_itemFromCart).cartItems :=
  claim_C8_cartItems_nonneg.1 (initContext 0 0) EventType.remove_itemFromCart (by decide)

/-- C9 (counterexample): the claim says a `remove_itemFromCart` can partially
reset the context flags. It cannot: `updateContext` on `remove_itemFromCart`
never changes `hasAddedToCart`, `hasViewedCart`, or `hasCheckedOut` for any
context, so no execution of `generateUserEventSequence` can flip a flag from
true to false while processing a removal. -/
theorem claim_C9_counterexample :
    ¬ ∃ ctx : EventGenerationContext,
      (updateContext ctx .remove_itemFromCart).hasAddedToCart ≠ ctx.hasAddedToCart ∨
      (updateContext ctx .remove_itemFromCart).hasViewedCart ≠ ctx.hasViewedCart ∨
      (updateContext ctx .remove_itemFromCart).hasCheckedOut ≠ ctx.hasCheckedOut := by
  rintro ⟨ctx, h | h | h⟩ <;> exact h rfl

/-- C9 (amended): processing a `remove_itemFromCart` leaves the three flags
`hasAddedToCart`, `hasViewedCart`, `hasCheckedOut` unchanged; its only effect
on the context is decrementing `cartItems`, floored at 0. -/
theorem claim_C9_remove_preserves_flags (ctx : EventGenerationContext) :
    (updateContext ctx .remove_itemFromCart).hasAddedToCart = ctx.hasAddedToCart ∧
    (updateContext ctx .remove_itemFromCart).hasViewedCart = ctx.hasViewedCart ∧
    (updateContext ctx .remove_itemFromCart).hasCheckedOut = ctx.hasCheckedOut ∧
    (updateContext ctx .remove_itemFromCart).cartItems = max 0 (ctx.cartItems - 1) ∧
    (updateContext ctx .remove_itemFromCart).sessionId = ctx.sessionId ∧
    (updateContext ctx .remove_itemFromCart).baseTimestamp = ctx.baseTimestamp :=
  ⟨rfl, rfl, rfl, rfl, rfl, rfl⟩

/-- C10: for every eventType and context, `generateEventData` returns a payload
without mutating the context: all six context fields are identical before and
after the call. -/
theorem claim_C10_payload_no_mutation (t : EventType) (ctx : EventGenerationContext)
    (r : Rand) (k : Nat) :
    (generateEventData t ctx r k).2.1.hasAddedToCart = ctx.hasAddedToCart ∧
    (generateEventData t ctx r k).2.1.hasViewedCart = ctx.hasViewedCart ∧
    (generateEventData t ctx r k).2.1.hasCheckedOut = ctx.hasCheckedOut ∧
    (generateEventData t ctx r k).2.1.cartItems = ctx.cartItems ∧
    (generateEventData t ctx r k).2.1.sessionId = ctx.sessionId ∧
    (generateEventData t ctx r k).2.1.baseTimestamp = ctx.baseTimestamp := by
  rw [generateEventData_context]
  exact ⟨rfl, rfl, rfl, rfl, rfl, rfl⟩

/-- C3 (counterexample): under the spec's concrete scenario configuration the
event at index 5 is a further `transaction_complete`, not an element of the
passive-browsing set as the claim states: with
`transactionAfterCheckoutProbability = 1.0` the first priority rule fires at
every step after the checkout. Shown here at the all-zero draw stream. -/
theorem claim_C3_counterexample :
    (((generateUserEventSequence scenarioCfg profileReg "US" zeroRand 0).1).map
      (fun e => e.eventType))[5]? = some EventType.transaction_complete ∧
    EventType.transaction_complete ∉ passiveBrowsing := by
  obtain ⟨e0, _, hT⟩ := scenario_run_types profileReg "US" zeroRand 0
  constructor
  · rw [hT]
    rfl
  · decide

/-- C3 (amended): under the configuration min=10, max=10, all funnel
probabilities 1.0, removeFromCart 0.0, the 10-event sequence for a registered
user begins page_view-or-search, `add_itemToCart`, `view_cart`, `checkout`,
`transaction_complete` (reaching `transaction_complete` at the 5th event), and
the remaining 5 events (indices 5..9) are all further `transaction_complete`
events (not passive-browsing events). -/
theorem claim_C3_scenario_funnel (profile : UserProfile) (country : String)
    (r : Rand) (k : Nat) (hreg : profile.profileType = .registered) :
    ∃ e0 : EventType, (e0 = .page_view ∨ e0 = .search) ∧
      ((generateUserEventSequence scenarioCfg profile country r k).1).map
        (fun e => e.eventType) =
        e0 :: .add_itemToCart :: .view_cart :: .checkout ::
          List.replicate 6 .transaction_complete :=
  scenario_run_types profile country r k

theorem claim_C3_scenario_funnel_witness :
    profileReg.profileType = ProfileType.registered ∧
    ∃ e0 : EventType, (e0 = .page_view ∨ e0 = .search) ∧
      ((generateUserEventSequence scenarioCfg profileReg "FR" zeroRand 0).1).map
        (fun e => e.eventType) =
        e0 :: .add_itemToCart :: .view_cart :: .checkout ::
          List.replicate 6 .transaction_complete :=
  ⟨by decide, claim_C3_scenario_funnel profileReg "FR" zeroRand 0 (by decide)⟩

/-- C2 (counterexample): timestamps are not non-decreasing for every outcome
of the draws. At `quietCfg` (3 events, no session replacement) with the draw
stream `spikeRand`, the event timestamps are `[0, 300000, 2000]`: the code
computes each timestamp as `baseTimestamp + i * offset` with a fresh
`generateRandomInt(1000, 300000)` offset per event, so a large offset at
index 1 followed by a small one at index 2 makes the sequence decrease. -/
theorem claim_C2_counterexample :
    ¬ List.Chain' (fun a b : Nat => a ≤ b)
      (((generateUserEventSequence quietCfg profileReg "US" spikeRand 0).1).map
        (fun e => e.timestamp)) := by
  rw [spike_timestamps]
  simp [List.chain'_cons]

/-- C2 (amended): each event's timestamp is the current session's
`baseTimestamp` plus the event index times a fresh random offset, so
timestamps are only guaranteed non-decreasing under side conditions; in
particular they are non-decreasing whenever the session-continuation
probability is 1 (the session anchor is never replaced) and the raw integer
draw stream is constant (every offset draw yields the same value). -/
theorem claim_C2_timestamps_conditional (cfg : EventGenConfig)
    (profile : UserProfile) (country : String) (r : Rand) (k : Nat) (cval : Nat)
    (hsc : cfg.sessionContinuationProbability = 1)
    (hc : ∀ t, r.nat t = cval) :
    List.Pairwise (fun a b : Nat => a ≤ b)
      (((generateUserEventSequence cfg profile country r k).1).map
        (fun e => e.timestamp)) := by
  have hseq : (generateUserEventSequence cfg profile country r k).1 =
      (genEvents cfg profile country r
        ((randNat r k cfg.eventCountMin cfg.eventCountMax).1) 0
        (initContext (genId r (randNat r k cfg.eventCountMin cfg.eventCountMax).2).1
          (generateRecentDate r
            (genId r (randNat r k cfg.eventCountMin cfg.eventCountMax).2).2).1)
        (generateRecentDate r
          (genId r (randNat r k cfg.eventCountMin cfg.eventCountMax).2).2).2).1 := rfl
  rw [hseq, genEvents_timestamps_const cfg profile country r cval _ hsc hc]
  refine (List.pairwise_lt_range _).map _ ?_
  intro a b hab
  exact Nat.add_le_add_left
    (Nat.mul_le_mul_right _ (Nat.add_le_add_left (Nat.le_of_lt hab) 0)) _

theorem claim_C2_timestamps_conditional_witness :
    (quietCfg.sessionContinuationProbability = 1 ∧ ∀ t, zeroRand.nat t = 0) ∧
    List.Pairwise (fun a b : Nat => a ≤ b)
      (((generateUserEventSequence quietCfg profileReg "US" zeroRand 0).1).map
        (fun e => e.timestamp)) :=
  ⟨⟨rfl, fun _ => rfl⟩,
   claim_C2_timestamps_conditional quietCfg profileReg "US" zeroRand 0 0 rfl
     (fun _ => rfl)⟩

/-- C4 (counterexample): the claim says the session-replacement draw happens
at the start of each step `i > 0`, so that for some outcome the event at
index 1 would carry a different sessionId from the event at index 0. In the
code the draw happens at the end of each iteration `i > 0`, after the event is
pushed, so events 0 and 1 share a sessionId for every configuration, profile,
country, and draw outcome. -/
theorem claim_C4_counterexample :
    ¬ ∃ (cfg : EventGenConfig) (p : UserProfile) (c : String) (r : Rand) (k : Nat),
      2 ≤ ((generateUserEventSequence cfg p c r k).1).length ∧
      (((generateUserEventSequence cfg p c r k).1).getD 0 defaultEvent).eventData.sessionId ≠
      (((generateUserEventSequence cfg p c r k).1).getD 1 defaultEvent).eventData.sessionId := by
  rintro ⟨cfg, p, c, r, k, hlen, hne⟩
  apply hne
  rw [generateUserEventSequence_length] at hlen
  obtain ⟨f, hf⟩ : ∃ f, (randNat r k cfg.eventCountMin cfg.eventCountMax).1 = f + 2 :=
    ⟨(randNat r k cfg.eventCountMin cfg.eventCountMax).1 - 2, by omega⟩
  have hseq : (generateUserEventSequence cfg p c r k).1 =
      (genEvents cfg p c r
        ((randNat r k cfg.eventCountMin cfg.eventCountMax).1) 0
        (initContext (genId r (randNat r k cfg.eventCountMin cfg.eventCountMax).2).1
          (generateRecentDate r
            (genId r (randNat r k cfg.eventCountMin cfg.eventCountMax).2).2).1)
        (generateRecentDate r
          (genId r (randNat r k cfg.eventCountMin cfg.eventCountMax).2).2).2).1 := rfl
  rw [hseq, hf]
  rw [(genEvents_firstTwo_sessionId cfg p c r f _ _).1,
    (genEvents_firstTwo_sessionId cfg p c r f _ _).2]

/-- C4 (amended): the session-replacement draw is performed at the end of step
`i` for `i > 0`, after that step's event is emitted, so it affects the
following events only: the events at indices 0 and 1 always carry the same
payload sessionId, and for some outcome of the draws (shown concretely at
`newSessionCfg` with the identity draw stream) the event at index 2 carries a
sessionId different from the event at index 1. -/
theorem claim_C4_session_replacement :
    (∀ (cfg : EventGenConfig) (p : UserProfile) (c : String) (r : Rand) (k : Nat),
      2 ≤ ((generateUserEventSequence cfg p c r k).1).length →
      (((generateUserEventSequence cfg p c r k).1).getD 0 defaultEvent).eventData.sessionId =
      (((generateUserEventSequence cfg p c r k).1).getD 1 defaultEvent).eventData.sessionId) ∧
    (((generateUserEventSequence newSessionCfg profileReg "US" idRand 0).1).getD 1
        defaultEvent).eventData.sessionId ≠
    (((generateUserEventSequence newSessionCfg profileReg "US" idRand 0).1).getD 2
        defaultEvent).eventData.sessionId := by
  constructor
  · intro cfg p c r k hlen
    rw [generateUserEventSequence_length] at hlen
    obtain ⟨f, hf⟩ : ∃ f, (randNat r k cfg.eventCountMin cfg.eventCountMax).1 = f + 2 :=
      ⟨(randNat r k cfg.eventCountMin cfg.eventCountMax).1 - 2, by omega⟩
    have hseq : (generateUserEventSequence cfg p c r k).1 =
        (genEvents cfg p c r
          ((randNat r k cfg.eventCountMin cfg.eventCountMax).1) 0
          (initContext (genId r (randNat r k cfg.eventCountMin cfg.eventCountMax).2).1
            (generateRecentDate r
              (genId r (randNat r k cfg.eventCountMin cfg.eventCountMax).2).2).1)
          (generateRecentDate r
            (genId r (randNat r k cfg.eventCountMin cfg.eventCountMax).2).2).2).1 := rfl
    rw [hseq, hf]
    rw [(genEvents_firstTwo_sessionId cfg p c r f _ _).1,
      (genEvents_firstTwo_sessionId cfg p c r f _ _).2]
  · have h1 : (((generateUserEventSequence newSessionCfg profileReg "US" idRand 0).1).getD 1
        defaultEvent).eventData.sessionId = 1 := by
      have h := List.getD_map
        (l := (generateUserEventSequence newSessionCfg profileReg "US" idRand 0).1)
        (d := defaultEvent) (n := 1) (fun e : UserEvent => e.eventData.sessionId)
      rw [newSession_sids] at h
      exact h.symm
    have h2 : (((generateUserEventSequence newSessionCfg profileReg "US" idRand 0).1).getD 2
        defaultEvent).eventData.sessionId = 18 := by
      have h := List.getD_map
        (l := (generateUserEventSequence newSessionCfg profileReg "US" idRand 0).1)
        (d := defaultEvent) (n := 2) (fun e : UserEvent => e.eventData.sessionId)
      rw [newSession_sids] at h
      exact h.symm
    rw [h1, h2]
    omega

theorem claim_C4_session_replacement_witness :
    2 ≤ ((generateUserEventSequence quietCfg profileReg "US" zeroRand 0).1).length ∧
    (((generateUserEventSequence quietCfg profileReg "US" zeroRand 0).1).getD 0
        defaultEvent).eventData.sessionId =
    (((generateUserEventSequence quietCfg profileReg "US" zeroRand 0).1).getD 1
        defaultEvent).eventData.sessionId :=
  ⟨by rw [generateUserEventSequence_length]; decide,
   claim_C4_session_replacement.1 quietCfg profileReg "US" zeroRand 0
     (by rw [generateUserEventSequence_length]; decide)⟩

end DemoDataGen
